import Mathlib

/-!
Verification of the mesh-slicing (plane-cut) algorithm implemented by the
`Slicer` component (`FRUIT_SETUP_GUIDE.md`, `sliceMesh` and its helpers).
The code is embedded shallowly: mesh coordinates are rationals, the mutable
vertex/index/contour arrays become explicit lists threaded through a
`HullState`, and JS `null`/`undefined` optionality becomes `Option`.
The one operation that is not rational is the square-root used to
re-normalize interpolated vertex normals; it is abstracted as an explicit
function parameter `nrm` (no claim depends on the numeric value of a
normal, only on its presence).
-/

/-- A 3-component vector with rational coordinates (source: `number[]` of
length 3 holding positions and normals). -/
structure Vec3 where
  x : ℚ
  y : ℚ
  z : ℚ
deriving DecidableEq, Repr

/-- A 2-component vector (source: texture coordinates `number[]` of length 2). -/
structure Vec2 where
  u : ℚ
  v : ℚ
deriving DecidableEq, Repr

def Vec3.zero : Vec3 := ⟨0, 0, 0⟩

def Vec3.add (a b : Vec3) : Vec3 := ⟨a.x + b.x, a.y + b.y, a.z + b.z⟩

def Vec3.sub (a b : Vec3) : Vec3 := ⟨a.x - b.x, a.y - b.y, a.z - b.z⟩

def Vec3.neg (a : Vec3) : Vec3 := ⟨-a.x, -a.y, -a.z⟩

def Vec3.dot (a b : Vec3) : ℚ := a.x * b.x + a.y * b.y + a.z * b.z

/-- Cross product; used to express the orientation (front-face direction) of a
triangle, which the engine derives from the winding order of its vertices. -/
def Vec3.cross (a b : Vec3) : Vec3 :=
  ⟨a.y * b.z - a.z * b.y, a.z * b.x - a.x * b.z, a.x * b.y - a.y * b.x⟩

/-- Orientation vector of the triangle `(a, b, c)`: the cross product of its
two edge vectors out of `a`.  Swapping two vertices negates it. -/
def triangleOrientation (a b c : Vec3) : Vec3 := Vec3.cross (b.sub a) (c.sub a)

/-- Squared distance between two points, written as in the duplicate test of
`generateCap` (`dx*dx + dy*dy + dz*dz`). -/
def sqDist (a b : Vec3) : ℚ :=
  let dx := a.x - b.x
  let dy := a.y - b.y
  let dz := a.z - b.z
  dx * dx + dy * dy + dz * dz

/-- Source: `interface SliceVertex { position; normal?; texCoord? }`. -/
structure SliceVertex where
  position : Vec3
  normal : Option Vec3
  texCoord : Option Vec2
deriving DecidableEq, Repr

/-- Source: `interface ContourPoint { position; edgeVerts: [number, number] }` —
an intersection point together with the pair of original vertex indices of the
edge it was interpolated on. -/
structure ContourPoint where
  position : Vec3
  edgeVerts : Nat × Nat
deriving DecidableEq, Repr

/-- The cut plane: `slicePlaneNormal` and the plane point (the object's world
position is passed as `planePoint` by `sliceMesh`). -/
structure SlicePlane where
  normal : Vec3
  point : Vec3
deriving DecidableEq, Repr

/-- Source: `getSideOfPlane(vertex, planePoint)` — signed distance of a point
to the slice plane, `dot(normal, vertex - planePoint)` expanded componentwise. -/
def getSideOfPlane (pl : SlicePlane) (vertex : Vec3) : ℚ :=
  let dx := vertex.x - pl.point.x
  let dy := vertex.y - pl.point.y
  let dz := vertex.z - pl.point.z
  pl.normal.x * dx + pl.normal.y * dy + pl.normal.z * dz

/-- JavaScript `Math.sign` restricted to rationals: `-1`, `0` or `1`. -/
def mathSign (d : ℚ) : Int :=
  if d < 0 then -1 else if d = 0 then 0 else 1

/-- The four per-triangle topologies distinguished by the classification
branch of `sliceMesh` (spec section 4.1). -/
inductive Classification where
  | AllAbove
  | AllBelow
  | OnPlane
  | Straddle
deriving DecidableEq, Repr

/-- The classification if-chain of `sliceMesh`:
`sidesSum === 3` / `=== -3` / `=== 0` with some side `0` / otherwise. -/
def classify (d0 d1 d2 : ℚ) : Classification :=
  let side0 := mathSign d0
  let side1 := mathSign d1
  let side2 := mathSign d2
  let sidesSum := side0 + side1 + side2
  if sidesSum = 3 then Classification.AllAbove
  else if sidesSum = -3 then Classification.AllBelow
  else if sidesSum = 0 ∧ (side0 = 0 ∨ side1 = 0 ∨ side2 = 0) then Classification.OnPlane
  else Classification.Straddle

/-- Source: `addTriangle(vertices, indices, v0, v1, v2)` — pushes the three
vertices and the three consecutive indices `baseIndex .. baseIndex+2`. -/
def addTriangle (vertices : List SliceVertex) (indices : List Nat)
    (v0 v1 v2 : SliceVertex) : List SliceVertex × List Nat :=
  let baseIndex := vertices.length
  (vertices ++ [v0, v1, v2], indices ++ [baseIndex, baseIndex + 1, baseIndex + 2])

/-- The six mutable arrays `sliceMesh` threads through its helpers. -/
structure HullState where
  upperVerts : List SliceVertex
  lowerVerts : List SliceVertex
  upperIndices : List Nat
  lowerIndices : List Nat
  upperContour : List ContourPoint
  lowerContour : List ContourPoint
deriving DecidableEq, Repr

def emptyHullState : HullState := ⟨[], [], [], [], [], []⟩

/-- `addTriangle` applied to the upper hull's arrays. -/
def HullState.addUpper (st : HullState) (v0 v1 v2 : SliceVertex) : HullState :=
  let r := addTriangle st.upperVerts st.upperIndices v0 v1 v2
  { st with upperVerts := r.1, upperIndices := r.2 }

/-- `addTriangle` applied to the lower hull's arrays. -/
def HullState.addLower (st : HullState) (v0 v1 v2 : SliceVertex) : HullState :=
  let r := addTriangle st.lowerVerts st.lowerIndices v0 v1 v2
  { st with lowerVerts := r.1, lowerIndices := r.2 }

/-- `upperContour.push(p, q); lowerContour.push(p, q)` — every branch of
`splitTriangle` records both intersection points in both hulls' contours. -/
def HullState.pushContour (st : HullState) (p q : ContourPoint) : HullState :=
  { st with upperContour := st.upperContour ++ [p, q],
            lowerContour := st.lowerContour ++ [p, q] }

/-- Source: `interpolateVertex(v1, v2, t)`.  Position is interpolated
componentwise; a normal is produced only when both inputs have one, and is
re-normalized in the source by dividing by its Euclidean length — an
irrational operation abstracted here as the parameter `nrm`; a texCoord is
produced only when both inputs have one. -/
def interpolateVertex (nrm : Vec3 → Vec3) (v1 v2 : SliceVertex) (t : ℚ) : SliceVertex :=
  let pos : Vec3 :=
    ⟨v1.position.x + (v2.position.x - v1.position.x) * t,
     v1.position.y + (v2.position.y - v1.position.y) * t,
     v1.position.z + (v2.position.z - v1.position.z) * t⟩
  let nor : Option Vec3 :=
    match v1.normal, v2.normal with
    | some n1, some n2 =>
        some (nrm ⟨n1.x + (n2.x - n1.x) * t, n1.y + (n2.y - n1.y) * t,
                   n1.z + (n2.z - n1.z) * t⟩)
    | _, _ => none
  let tex : Option Vec2 :=
    match v1.texCoord, v2.texCoord with
    | some t1, some t2 =>
        some ⟨t1.u + (t2.u - t1.u) * t, t1.v + (t2.v - t1.v) * t⟩
    | _, _ => none
  ⟨pos, nor, tex⟩

/-- One element of the array sorted by `splitTriangle`:
`{ v: vertex, d: distance, i: original index }`. -/
structure DistEntry where
  v : SliceVertex
  d : ℚ
  i : Nat
deriving DecidableEq, Repr

/-- The stable ascending 3-element sort performed by
`[{v0,d0,i0},{v1,d1,i1},{v2,d2,i2}].sort((a, b) => a.d - b.d)`
(JS `Array.prototype.sort` is stable: records with equal `d` keep their
original relative order, hence all comparisons below are strict). -/
def sort3 (a b c : DistEntry) : DistEntry × DistEntry × DistEntry :=
  if b.d < a.d then
    if c.d < b.d then (c, b, a)
    else if c.d < a.d then (b, c, a)
    else (b, a, c)
  else
    if c.d < a.d then (c, a, b)
    else if c.d < b.d then (a, c, b)
    else (a, b, c)

/-- Body of `splitTriangle` after the sort, on the sorted entries
`vMin, vMid, vMax` (source lines following the destructuring
`const [vMin, vMid, vMax] = verts`). -/
def splitTriangleSorted (nrm : Vec3 → Vec3) (vMin vMid vMax : DistEntry)
    (st : HullState) : HullState :=
  if mathSign vMin.d = mathSign vMid.d then
    -- 2-1 split: two vertices on one side, one on the other
    let v2Same := vMid
    let v1Diff := vMax
    let t1 := |vMin.d| / (|vMin.d| + |v1Diff.d|)
    let t2 := |v2Same.d| / (|v2Same.d| + |v1Diff.d|)
    let vInt1 := interpolateVertex nrm vMin.v v1Diff.v t1
    let vInt2 := interpolateVertex nrm v2Same.v v1Diff.v t2
    let contourPt1 : ContourPoint := ⟨vInt1.position, (vMin.i, v1Diff.i)⟩
    let contourPt2 : ContourPoint := ⟨vInt2.position, (v2Same.i, v1Diff.i)⟩
    if vMin.d < 0 then
      ((((st.addLower vMin.v v2Same.v vInt1).addLower v2Same.v vInt2 vInt1).addUpper
          vInt1 vInt2 v1Diff.v).pushContour contourPt1 contourPt2)
    else
      ((((st.addUpper vMin.v v2Same.v vInt1).addUpper v2Same.v vInt2 vInt1).addLower
          vInt1 vInt2 v1Diff.v).pushContour contourPt1 contourPt2)
  else
    -- 1-2 split: one vertex on one side, two on the other
    let v1Same := vMin
    let v2Diff := vMid
    let t1 := |v1Same.d| / (|v1Same.d| + |v2Diff.d|)
    let t2 := |v1Same.d| / (|v1Same.d| + |vMax.d|)
    let vInt1 := interpolateVertex nrm v1Same.v v2Diff.v t1
    let vInt2 := interpolateVertex nrm v1Same.v vMax.v t2
    let contourPt1 : ContourPoint := ⟨vInt1.position, (v1Same.i, v2Diff.i)⟩
    let contourPt2 : ContourPoint := ⟨vInt2.position, (v1Same.i, vMax.i)⟩
    if v1Same.d < 0 then
      ((((st.addLower v1Same.v vInt1 vInt2).addUpper vInt1 v2Diff.v vMax.v).addUpper
          vInt1 vMax.v vInt2).pushContour contourPt1 contourPt2)
    else
      ((((st.addUpper v1Same.v vInt1 vInt2).addLower vInt1 v2Diff.v vMax.v).addLower
          vInt1 vMax.v vInt2).pushContour contourPt1 contourPt2)

/-- Source: `splitTriangle(v0, v1, v2, d0, d1, d2, ..., i0, i1, i2)` — sorts
the three `(vertex, distance, index)` records by distance and splits. -/
def splitTriangle (nrm : Vec3 → Vec3) (v0 v1 v2 : SliceVertex) (d0 d1 d2 : ℚ)
    (i0 i1 i2 : Nat) (st : HullState) : HullState :=
  let s := sort3 ⟨v0, d0, i0⟩ ⟨v1, d1, i1⟩ ⟨v2, d2, i2⟩
  splitTriangleSorted nrm s.1 s.2.1 s.2.2 st

/-- Source: `getVertexData(index, positions, normals, texCoords)` — reads a
vertex; the normal and texCoord attributes are read only when the attribute
arrays are present on the mesh. -/
def getVertexData (index : Nat) (positions : List Vec3)
    (normals : Option (List Vec3)) (texCoords : Option (List Vec2)) : SliceVertex :=
  { position := positions.getD index Vec3.zero
    normal := normals.map (fun ns => ns.getD index Vec3.zero)
    texCoord := texCoords.map (fun ts => ts.getD index ⟨0, 0⟩) }

/-- One iteration of the triangle loop of `sliceMesh`: read the three
vertices, compute their signed distances, classify, and route the triangle
whole to a hull or split it. -/
def processTriangle (pl : SlicePlane) (nrm : Vec3 → Vec3) (positions : List Vec3)
    (normals : Option (List Vec3)) (texCoords : Option (List Vec2))
    (st : HullState) (tri : Nat × Nat × Nat) : HullState :=
  let i0 := tri.1
  let i1 := tri.2.1
  let i2 := tri.2.2
  let v0 := getVertexData i0 positions normals texCoords
  let v1 := getVertexData i1 positions normals texCoords
  let v2 := getVertexData i2 positions normals texCoords
  let d0 := getSideOfPlane pl v0.position
  let d1 := getSideOfPlane pl v1.position
  let d2 := getSideOfPlane pl v2.position
  match classify d0 d1 d2 with
  | Classification.AllAbove => st.addUpper v0 v1 v2
  | Classification.AllBelow => st.addLower v0 v1 v2
  | Classification.OnPlane => st.addUpper v0 v1 v2
  | Classification.Straddle => splitTriangle nrm v0 v1 v2 d0 d1 d2 i0 i1 i2 st

/-- The index triples visited by `for (let i = 0; i < indices.length; i += 3)`
(the index buffer length is a multiple of 3 for a well-formed mesh). -/
def triples : List Nat → List (Nat × Nat × Nat)
  | a :: b :: c :: rest => (a, b, c) :: triples rest
  | _ => []

/-- The state of the six arrays after the triangle loop of `sliceMesh`,
before cap generation. -/
def sliceAccum (pl : SlicePlane) (nrm : Vec3 → Vec3) (positions : List Vec3)
    (normals : Option (List Vec3)) (texCoords : Option (List Vec2))
    (indices : List Nat) : HullState :=
  (triples indices).foldl (processTriangle pl nrm positions normals texCoords)
    emptyHullState

/-- `const epsilon = 0.0001` of `generateCap`. -/
def capEpsilon : ℚ := 1 / 10000

/-- The duplicate test of `generateCap`: is `pt` within `epsilon` (squared
distance strictly below `epsilon*epsilon`) of some already-kept point? -/
def isDuplicatePoint (uniqueContour : List ContourPoint) (pt : ContourPoint) : Bool :=
  uniqueContour.any fun existing =>
    decide (sqDist existing.position pt.position < capEpsilon * capEpsilon)

/-- The deduplication loop of `generateCap`: keep each contour point unless it
duplicates an already-kept one (first-seen wins). -/
def dedupContour (contour : List ContourPoint) : List ContourPoint :=
  contour.foldl (fun uniqueContour pt =>
    if isDuplicatePoint uniqueContour pt then uniqueContour
    else uniqueContour ++ [pt]) []

/-- Source: `generateCap(vertices, indices, contour, isUpper)` — deduplicates
the contour, and when at least 3 unique points remain appends a centroid
vertex, one vertex per unique contour point (all carrying the cap normal and
texCoord `[0.5, 0.5]`), and a triangle fan around the centroid, wound one way
for the upper hull and the opposite way for the lower hull. -/
def generateCap (pl : SlicePlane) (vertices : List SliceVertex) (indices : List Nat)
    (contour : List ContourPoint) (isUpper : Bool) : List SliceVertex × List Nat :=
  if contour.length < 3 then (vertices, indices) else
  let uniqueContour := dedupContour contour
  if uniqueContour.length < 3 then (vertices, indices) else
  let csum := uniqueContour.foldl (fun acc pt => acc.add pt.position) Vec3.zero
  let n : ℚ := (uniqueContour.length : ℚ)
  let centroid : Vec3 := ⟨csum.x / n, csum.y / n, csum.z / n⟩
  let capNormal := if isUpper then pl.normal else pl.normal.neg
  let baseIndex := vertices.length
  let vertices1 := vertices ++ [⟨centroid, some capNormal, some ⟨1/2, 1/2⟩⟩]
  let contourStartIndex := vertices1.length
  let vertices2 := vertices1 ++ uniqueContour.map
    (fun pt => ⟨pt.position, some capNormal, some ⟨1/2, 1/2⟩⟩)
  let fan := ((List.range uniqueContour.length).map fun i =>
    let next := (i + 1) % uniqueContour.length
    if isUpper then [baseIndex, contourStartIndex + i, contourStartIndex + next]
    else [baseIndex, contourStartIndex + next, contourStartIndex + i]).flatten
  (vertices2, indices ++ fan)

/-- The input mesh as read by `sliceMesh`: position/normal/texCoord attribute
arrays (each possibly absent) and the index buffer (possibly absent). -/
structure InputMesh where
  positions : Option (List Vec3)
  normals : Option (List Vec3)
  texCoords : Option (List Vec2)
  indexData : Option (List Nat)
deriving DecidableEq, Repr

/-- The two finished vertex/index buffers handed to the mesh emitter. -/
structure SliceResult where
  upperVerts : List SliceVertex
  upperIndices : List Nat
  lowerVerts : List SliceVertex
  lowerIndices : List Nat
deriving DecidableEq, Repr

def emptySliceResult : SliceResult := ⟨[], [], [], []⟩

/-- Source: `sliceMesh` — returns `null` when positions or indices are absent;
runs the triangle loop; when either hull ends up without geometry logs
`console.warn("Slice resulted in empty mesh ...")` and returns `null`;
otherwise generates both caps and hands the buffers to the mesh emitter
(object creation and the `±0.1` visual offset are engine calls outside this
embedding). -/
def sliceMesh (pl : SlicePlane) (nrm : Vec3 → Vec3) (mesh : InputMesh) :
    Option SliceResult :=
  match mesh.positions, mesh.indexData with
  | some positions, some indices =>
    let st := sliceAccum pl nrm positions mesh.normals mesh.texCoords indices
    if st.upperVerts.length = 0 ∨ st.lowerVerts.length = 0 then
      none  -- console.warn path: degenerate cut
    else
      let upper := generateCap pl st.upperVerts st.upperIndices st.upperContour true
      let lower := generateCap pl st.lowerVerts st.lowerIndices st.lowerContour false
      some ⟨upper.1, upper.2, lower.1, lower.2⟩
  | _, _ => none

/-! ### Basic lemmas about `mathSign` -/

lemma mathSign_of_neg {d : ℚ} (h : d < 0) : mathSign d = -1 := by
  unfold mathSign; rw [if_pos h]

lemma mathSign_of_zero : mathSign 0 = 0 := by
  unfold mathSign; norm_num

lemma mathSign_of_pos {d : ℚ} (h : 0 < d) : mathSign d = 1 := by
  unfold mathSign; rw [if_neg (not_lt.mpr h.le), if_neg (ne_of_gt h)]

lemma mathSign_cases (d : ℚ) :
    (d < 0 ∧ mathSign d = -1) ∨ (d = 0 ∧ mathSign d = 0) ∨ (0 < d ∧ mathSign d = 1) := by
  rcases lt_trichotomy d 0 with h | h | h
  · exact Or.inl ⟨h, mathSign_of_neg h⟩
  · exact Or.inr (Or.inl ⟨h, h ▸ mathSign_of_zero⟩)
  · exact Or.inr (Or.inr ⟨h, mathSign_of_pos h⟩)

lemma mathSign_eq_neg_one_iff {d : ℚ} : mathSign d = -1 ↔ d < 0 := by
  constructor
  · intro hs
    rcases mathSign_cases d with ⟨h, _⟩ | ⟨_, h2⟩ | ⟨_, h2⟩
    · exact h
    · rw [h2] at hs; exact absurd hs (by decide)
    · rw [h2] at hs; exact absurd hs (by decide)
  · exact mathSign_of_neg

lemma mathSign_eq_zero_iff {d : ℚ} : mathSign d = 0 ↔ d = 0 := by
  constructor
  · intro hs
    rcases mathSign_cases d with ⟨_, h2⟩ | ⟨h, _⟩ | ⟨_, h2⟩
    · rw [h2] at hs; exact absurd hs (by decide)
    · exact h
    · rw [h2] at hs; exact absurd hs (by decide)
  · intro h; rw [h]; exact mathSign_of_zero

lemma mathSign_eq_one_iff {d : ℚ} : mathSign d = 1 ↔ 0 < d := by
  constructor
  · intro hs
    rcases mathSign_cases d with ⟨_, h2⟩ | ⟨_, h2⟩ | ⟨h, _⟩
    · rw [h2] at hs; exact absurd hs (by decide)
    · rw [h2] at hs; exact absurd hs (by decide)
    · exact h
  · exact mathSign_of_pos

lemma mathSign_mem (d : ℚ) : mathSign d = -1 ∨ mathSign d = 0 ∨ mathSign d = 1 := by
  rcases mathSign_cases d with ⟨_, h⟩ | ⟨_, h⟩ | ⟨_, h⟩
  · exact Or.inl h
  · exact Or.inr (Or.inl h)
  · exact Or.inr (Or.inr h)

lemma mathSign_mono {d e : ℚ} (h : d ≤ e) : mathSign d ≤ mathSign e := by
  rcases mathSign_cases d with ⟨hd, hsd⟩ | ⟨hd, hsd⟩ | ⟨hd, hsd⟩ <;>
    rcases mathSign_cases e with ⟨he, hse⟩ | ⟨he, hse⟩ | ⟨he, hse⟩ <;>
      rw [hsd, hse] <;> first | decide | (exfalso; linarith)

/-! ### How the state-updating helpers act on each field -/

@[simp] lemma addUpper_upperVerts (st : HullState) (v0 v1 v2 : SliceVertex) :
    (st.addUpper v0 v1 v2).upperVerts = st.upperVerts ++ [v0, v1, v2] := rfl

@[simp] lemma addUpper_lowerVerts (st : HullState) (v0 v1 v2 : SliceVertex) :
    (st.addUpper v0 v1 v2).lowerVerts = st.lowerVerts := rfl

@[simp] lemma addUpper_upperIndices (st : HullState) (v0 v1 v2 : SliceVertex) :
    (st.addUpper v0 v1 v2).upperIndices =
      st.upperIndices ++ [st.upperVerts.length, st.upperVerts.length + 1,
        st.upperVerts.length + 2] := rfl

@[simp] lemma addUpper_lowerIndices (st : HullState) (v0 v1 v2 : SliceVertex) :
    (st.addUpper v0 v1 v2).lowerIndices = st.lowerIndices := rfl

@[simp] lemma addUpper_upperContour (st : HullState) (v0 v1 v2 : SliceVertex) :
    (st.addUpper v0 v1 v2).upperContour = st.upperContour := rfl

@[simp] lemma addUpper_lowerContour (st : HullState) (v0 v1 v2 : SliceVertex) :
    (st.addUpper v0 v1 v2).lowerContour = st.lowerContour := rfl

@[simp] lemma addLower_upperVerts (st : HullState) (v0 v1 v2 : SliceVertex) :
    (st.addLower v0 v1 v2).upperVerts = st.upperVerts := rfl

@[simp] lemma addLower_lowerVerts (st : HullState) (v0 v1 v2 : SliceVertex) :
    (st.addLower v0 v1 v2).lowerVerts = st.lowerVerts ++ [v0, v1, v2] := rfl

@[simp] lemma addLower_upperIndices (st : HullState) (v0 v1 v2 : SliceVertex) :
    (st.addLower v0 v1 v2).upperIndices = st.upperIndices := rfl

@[simp] lemma addLower_lowerIndices (st : HullState) (v0 v1 v2 : SliceVertex) :
    (st.addLower v0 v1 v2).lowerIndices =
      st.lowerIndices ++ [st.lowerVerts.length, st.lowerVerts.length + 1,
        st.lowerVerts.length + 2] := rfl

@[simp] lemma addLower_upperContour (st : HullState) (v0 v1 v2 : SliceVertex) :
    (st.addLower v0 v1 v2).upperContour = st.upperContour := rfl

@[simp] lemma addLower_lowerContour (st : HullState) (v0 v1 v2 : SliceVertex) :
    (st.addLower v0 v1 v2).lowerContour = st.lowerContour := rfl

@[simp] lemma pushContour_upperVerts (st : HullState) (p q : ContourPoint) :
    (st.pushContour p q).upperVerts = st.upperVerts := rfl

@[simp] lemma pushContour_lowerVerts (st : HullState) (p q : ContourPoint) :
    (st.pushContour p q).lowerVerts = st.lowerVerts := rfl

@[simp] lemma pushContour_upperIndices (st : HullState) (p q : ContourPoint) :
    (st.pushContour p q).upperIndices = st.upperIndices := rfl

@[simp] lemma pushContour_lowerIndices (st : HullState) (p q : ContourPoint) :
    (st.pushContour p q).lowerIndices = st.lowerIndices := rfl

@[simp] lemma pushContour_upperContour (st : HullState) (p q : ContourPoint) :
    (st.pushContour p q).upperContour = st.upperContour ++ [p, q] := rfl

@[simp] lemma pushContour_lowerContour (st : HullState) (p q : ContourPoint) :
    (st.pushContour p q).lowerContour = st.lowerContour ++ [p, q] := rfl

@[simp] lemma interpolateVertex_position (nrm : Vec3 → Vec3) (v1 v2 : SliceVertex) (t : ℚ) :
    (interpolateVertex nrm v1 v2 t).position =
      ⟨v1.position.x + (v2.position.x - v1.position.x) * t,
       v1.position.y + (v2.position.y - v1.position.y) * t,
       v1.position.z + (v2.position.z - v1.position.z) * t⟩ := rfl

/-! ### Characterization of the classification branch -/

/-- The residual condition under which `sliceMesh` reaches its splitting
branch: none of the first three classification tests holds. -/
def StraddleCond (d0 d1 d2 : ℚ) : Prop :=
  ¬(mathSign d0 + mathSign d1 + mathSign d2 = 3) ∧
  ¬(mathSign d0 + mathSign d1 + mathSign d2 = -3) ∧
  ¬(mathSign d0 + mathSign d1 + mathSign d2 = 0 ∧
    (mathSign d0 = 0 ∨ mathSign d1 = 0 ∨ mathSign d2 = 0))

lemma classify_eq_allAbove_iff (d0 d1 d2 : ℚ) :
    classify d0 d1 d2 = Classification.AllAbove ↔
      mathSign d0 + mathSign d1 + mathSign d2 = 3 := by
  simp only [classify]
  split_ifs with h1 h2 h3 <;> simp_all

lemma classify_eq_allBelow_iff (d0 d1 d2 : ℚ) :
    classify d0 d1 d2 = Classification.AllBelow ↔
      mathSign d0 + mathSign d1 + mathSign d2 = -3 := by
  simp only [classify]
  split_ifs with h1 h2 h3 <;> simp_all

lemma classify_eq_onPlane_iff (d0 d1 d2 : ℚ) :
    classify d0 d1 d2 = Classification.OnPlane ↔
      (mathSign d0 + mathSign d1 + mathSign d2 = 0 ∧
       (mathSign d0 = 0 ∨ mathSign d1 = 0 ∨ mathSign d2 = 0)) := by
  simp only [classify]
  split_ifs with h1 h2 h3 <;> simp_all

lemma classify_eq_straddle_iff (d0 d1 d2 : ℚ) :
    classify d0 d1 d2 = Classification.Straddle ↔ StraddleCond d0 d1 d2 := by
  simp only [classify, StraddleCond]
  split_ifs with h1 h2 h3 <;> simp_all

/-! ### Permutations of three-element lists -/

lemma perm3_swap01 {α : Type} (x y z : α) : ([y, x, z] : List α).Perm [x, y, z] :=
  List.Perm.swap x y [z]

lemma perm3_swap12 {α : Type} (x y z : α) : ([x, z, y] : List α).Perm [x, y, z] :=
  List.Perm.cons x (List.Perm.swap y z [])

lemma perm3_rot {α : Type} (x y z : α) : ([y, z, x] : List α).Perm [x, y, z] :=
  (List.Perm.cons y (List.Perm.swap x z [])).trans (List.Perm.swap x y [z])

lemma perm3_rot2 {α : Type} (x y z : α) : ([z, x, y] : List α).Perm [x, y, z] :=
  (perm3_swap01 x z y).trans (perm3_swap12 x y z)

lemma perm3_rev {α : Type} (x y z : α) : ([z, y, x] : List α).Perm [x, y, z] :=
  (perm3_swap01 y z x).trans (perm3_rot x y z)

/-- `sort3` returns a permutation of its input, sorted ascending by `d`. -/
lemma sort3_spec (a b c : DistEntry) :
    [(sort3 a b c).1, (sort3 a b c).2.1, (sort3 a b c).2.2].Perm [a, b, c] ∧
      (sort3 a b c).1.d ≤ (sort3 a b c).2.1.d ∧
      (sort3 a b c).2.1.d ≤ (sort3 a b c).2.2.d := by
  unfold sort3
  split_ifs with h1 h2 h3 h4 h5
  · exact ⟨perm3_rev a b c, h2.le, h1.le⟩
  · exact ⟨perm3_rot a b c, le_of_not_lt h2, h3.le⟩
  · exact ⟨perm3_swap01 a b c, h1.le, le_of_not_lt h3⟩
  · exact ⟨perm3_rot2 a b c, h4.le, le_of_not_lt h1⟩
  · exact ⟨perm3_swap12 a b c, le_of_not_lt h4, h5.le⟩
  · exact ⟨List.Perm.refl _, le_of_not_lt h1, le_of_not_lt h5⟩

/-- The straddle condition only depends on the multiset of the three
distances. -/
lemma straddleCond_perm3 {a0 a1 a2 b0 b1 b2 : ℚ}
    (h : ([a0, a1, a2] : List ℚ).Perm [b0, b1, b2])
    (hb : StraddleCond b0 b1 b2) : StraddleCond a0 a1 a2 := by
  have hsum : mathSign a0 + mathSign a1 + mathSign a2
      = mathSign b0 + mathSign b1 + mathSign b2 := by
    have h2 := (h.map mathSign).sum_eq
    simpa [add_assoc] using h2
  have hmem : (mathSign a0 = 0 ∨ mathSign a1 = 0 ∨ mathSign a2 = 0) →
      (mathSign b0 = 0 ∨ mathSign b1 = 0 ∨ mathSign b2 = 0) := by
    intro hz
    have h0 : (0 : Int) ∈ [mathSign a0, mathSign a1, mathSign a2] := by
      rcases hz with hz | hz | hz <;> simp [hz]
    have h3 : (0 : Int) ∈ [mathSign b0, mathSign b1, mathSign b2] := by
      have h4 := (h.map mathSign).mem_iff (a := (0 : Int))
      rw [← show ([b0, b1, b2].map mathSign) = [mathSign b0, mathSign b1, mathSign b2] from rfl]
      exact h4.mp (by simpa using h0)
    simpa [eq_comm] using h3
  obtain ⟨hb1, hb2, hb3⟩ := hb
  exact ⟨fun hc => hb1 (by omega), fun hc => hb2 (by omega),
    fun hc => hb3 ⟨by omega, hmem hc.2⟩⟩

/-! ### Signed distance of interpolated points -/

lemma getSideOfPlane_interpolate (pl : SlicePlane) (nrm : Vec3 → Vec3)
    (u w : SliceVertex) (t : ℚ) :
    getSideOfPlane pl (interpolateVertex nrm u w t).position =
      getSideOfPlane pl u.position
        + t * (getSideOfPlane pl w.position - getSideOfPlane pl u.position) := by
  simp only [interpolateVertex_position, getSideOfPlane]
  ring

/-- The interpolation parameter `t = |d_same| / (|d_same| + |d_opposite|)` of
`splitTriangle` lands exactly on the plane whenever the two endpoint
distances have different signs. -/
lemma lerp_param_zero {dS dO : ℚ} (h : mathSign dS ≠ mathSign dO) :
    dS + |dS| / (|dS| + |dO|) * (dO - dS) = 0 := by
  rcases mathSign_cases dS with ⟨hS, hsS⟩ | ⟨hS, hsS⟩ | ⟨hS, hsS⟩ <;>
    rcases mathSign_cases dO with ⟨hO, hsO⟩ | ⟨hO, hsO⟩ | ⟨hO, hsO⟩
  · exact absurd (hsS.trans hsO.symm) h
  · have h1 : -dS ≠ 0 := ne_of_gt (neg_pos.mpr hS)
    rw [hO, abs_of_neg hS]
    rw [abs_zero, add_zero, div_self h1]
    ring
  · have h1 : -dS + dO ≠ 0 := ne_of_gt (by linarith)
    rw [abs_of_neg hS, abs_of_pos hO]
    field_simp
    ring
  · rw [hS]; simp
  · exact absurd (hsS.trans hsO.symm) h
  · rw [hS]; simp
  · have h1 : dS + -dO ≠ 0 := ne_of_gt (by linarith)
    rw [abs_of_pos hS, abs_of_neg hO]
    field_simp
    ring
  · rw [hO, abs_of_pos hS]
    rw [abs_zero, add_zero, div_self (ne_of_gt hS)]
    ring
  · exact absurd (hsS.trans hsO.symm) h

/-- Master description of `splitTriangleSorted` on a sorted straddling
triangle: the three entries split into a same-sign pair `a, b` and a lone
entry `c`; two intersection vertices are produced by interpolating along the
edges `a–c` and `b–c` with the `|d_same| / (|d_same| + |d_opposite|)`
parameter; both contour points carry the interpolated position and the source
edge's original index pair; the pair side receives two sub-triangles and the
lone side one. -/
lemma splitTriangleSorted_spec (nrm : Vec3 → Vec3) (vMin vMid vMax : DistEntry)
    (st : HullState) (h1 : vMin.d ≤ vMid.d) (h2 : vMid.d ≤ vMax.d)
    (hS : StraddleCond vMin.d vMid.d vMax.d) :
    ∃ a b c : DistEntry, ∃ vInt1 vInt2 : SliceVertex, ∃ p q : ContourPoint,
      [a, b, c].Perm [vMin, vMid, vMax] ∧
      mathSign a.d = mathSign b.d ∧ mathSign c.d ≠ mathSign a.d ∧
      ((vInt1 = interpolateVertex nrm a.v c.v (|a.d| / (|a.d| + |c.d|)) ∧
        vInt2 = interpolateVertex nrm b.v c.v (|b.d| / (|b.d| + |c.d|)) ∧
        p = ⟨vInt1.position, (a.i, c.i)⟩ ∧ q = ⟨vInt2.position, (b.i, c.i)⟩) ∨
       (vInt1 = interpolateVertex nrm c.v a.v (|c.d| / (|c.d| + |a.d|)) ∧
        vInt2 = interpolateVertex nrm c.v b.v (|c.d| / (|c.d| + |b.d|)) ∧
        p = ⟨vInt1.position, (c.i, a.i)⟩ ∧ q = ⟨vInt2.position, (c.i, b.i)⟩)) ∧
      (splitTriangleSorted nrm vMin vMid vMax st =
         (((st.addLower a.v b.v vInt1).addLower b.v vInt2 vInt1).addUpper
           vInt1 vInt2 c.v).pushContour p q ∨
       splitTriangleSorted nrm vMin vMid vMax st =
         (((st.addUpper a.v b.v vInt1).addUpper b.v vInt2 vInt1).addLower
           vInt1 vInt2 c.v).pushContour p q ∨
       splitTriangleSorted nrm vMin vMid vMax st =
         (((st.addLower c.v vInt1 vInt2).addUpper vInt1 a.v b.v).addUpper
           vInt1 b.v vInt2).pushContour p q ∨
       splitTriangleSorted nrm vMin vMid vMax st =
         (((st.addUpper c.v vInt1 vInt2).addLower vInt1 a.v b.v).addLower
           vInt1 b.v vInt2).pushContour p q) := by
  have r0 := mathSign_mem vMin.d
  have r1 := mathSign_mem vMid.d
  have r2 := mathSign_mem vMax.d
  obtain ⟨hs1, hs2, hs3⟩ := hS
  by_cases hEq : mathSign vMin.d = mathSign vMid.d
  · have hCne : mathSign vMax.d ≠ mathSign vMin.d := by omega
    refine ⟨vMin, vMid, vMax, _, _, _, _, List.Perm.refl _, hEq, hCne,
      Or.inl ⟨rfl, rfl, rfl, rfl⟩, ?_⟩
    simp only [splitTriangleSorted]
    rw [if_pos hEq]
    by_cases hLt : vMin.d < 0
    · rw [if_pos hLt]; exact Or.inl rfl
    · rw [if_neg hLt]; exact Or.inr (Or.inl rfl)
  · have sm1 := mathSign_mono h1
    have sm2 := mathSign_mono h2
    have hab : mathSign vMid.d = mathSign vMax.d := by omega
    refine ⟨vMid, vMax, vMin, _, _, _, _, perm3_rot vMin vMid vMax, hab, hEq,
      Or.inr ⟨rfl, rfl, rfl, rfl⟩, ?_⟩
    simp only [splitTriangleSorted]
    rw [if_neg hEq]
    by_cases hLt : vMin.d < 0
    · rw [if_pos hLt]; exact Or.inr (Or.inr (Or.inl rfl))
    · rw [if_neg hLt]; exact Or.inr (Or.inr (Or.inr rfl))

/-- `splitTriangle_spec`: the master description lifted through the sort to
the original (unsorted) call of `splitTriangle`. -/
lemma splitTriangle_spec (nrm : Vec3 → Vec3) (v0 v1 v2 : SliceVertex)
    (d0 d1 d2 : ℚ) (i0 i1 i2 : Nat) (st : HullState)
    (h : classify d0 d1 d2 = Classification.Straddle) :
    ∃ a b c : DistEntry, ∃ vInt1 vInt2 : SliceVertex, ∃ p q : ContourPoint,
      [a, b, c].Perm [⟨v0, d0, i0⟩, ⟨v1, d1, i1⟩, ⟨v2, d2, i2⟩] ∧
      mathSign a.d = mathSign b.d ∧ mathSign c.d ≠ mathSign a.d ∧
      ((vInt1 = interpolateVertex nrm a.v c.v (|a.d| / (|a.d| + |c.d|)) ∧
        vInt2 = interpolateVertex nrm b.v c.v (|b.d| / (|b.d| + |c.d|)) ∧
        p = ⟨vInt1.position, (a.i, c.i)⟩ ∧ q = ⟨vInt2.position, (b.i, c.i)⟩) ∨
       (vInt1 = interpolateVertex nrm c.v a.v (|c.d| / (|c.d| + |a.d|)) ∧
        vInt2 = interpolateVertex nrm c.v b.v (|c.d| / (|c.d| + |b.d|)) ∧
        p = ⟨vInt1.position, (c.i, a.i)⟩ ∧ q = ⟨vInt2.position, (c.i, b.i)⟩)) ∧
      (splitTriangle nrm v0 v1 v2 d0 d1 d2 i0 i1 i2 st =
         (((st.addLower a.v b.v vInt1).addLower b.v vInt2 vInt1).addUpper
           vInt1 vInt2 c.v).pushContour p q ∨
       splitTriangle nrm v0 v1 v2 d0 d1 d2 i0 i1 i2 st =
         (((st.addUpper a.v b.v vInt1).addUpper b.v vInt2 vInt1).addLower
           vInt1 vInt2 c.v).pushContour p q ∨
       splitTriangle nrm v0 v1 v2 d0 d1 d2 i0 i1 i2 st =
         (((st.addLower c.v vInt1 vInt2).addUpper vInt1 a.v b.v).addUpper
           vInt1 b.v vInt2).pushContour p q ∨
       splitTriangle nrm v0 v1 v2 d0 d1 d2 i0 i1 i2 st =
         (((st.addUpper c.v vInt1 vInt2).addLower vInt1 a.v b.v).addLower
           vInt1 b.v vInt2).pushContour p q) := by
  have hSC : StraddleCond d0 d1 d2 := (classify_eq_straddle_iff d0 d1 d2).mp h
  obtain ⟨hperm, ho1, ho2⟩ := sort3_spec ⟨v0, d0, i0⟩ ⟨v1, d1, i1⟩ ⟨v2, d2, i2⟩
  have hdperm := hperm.map (fun e => e.d)
  have hSC2 := straddleCond_perm3 (by simpa using hdperm) hSC
  obtain ⟨a, b, c, I1, I2, p, q, hp, hsab, hsca, hint, hst⟩ :=
    splitTriangleSorted_spec nrm _ _ _ st ho1 ho2 hSC2
  have hdef : splitTriangle nrm v0 v1 v2 d0 d1 d2 i0 i1 i2 st =
      splitTriangleSorted nrm (sort3 ⟨v0, d0, i0⟩ ⟨v1, d1, i1⟩ ⟨v2, d2, i2⟩).1
        (sort3 ⟨v0, d0, i0⟩ ⟨v1, d1, i1⟩ ⟨v2, d2, i2⟩).2.1
        (sort3 ⟨v0, d0, i0⟩ ⟨v1, d1, i1⟩ ⟨v2, d2, i2⟩).2.2 st := rfl
  rw [hdef]
  exact ⟨a, b, c, I1, I2, p, q, hp.trans hperm, hsab, hsca, hint, hst⟩

/-- C2: for every triangle the classifier routes to the splitting case,
`splitTriangle` emits exactly 3 sub-triangles — two into the hull that
received the two same-sign vertices and one into the other hull — and creates
exactly 2 new intersection points, each recorded as a contour point in both
the upper-hull and the lower-hull contour, with its source edge set to the
pair of original vertex indices it was interpolated between. -/
theorem straddle_split_three_triangles_two_contour_points
    (nrm : Vec3 → Vec3) (v0 v1 v2 : SliceVertex) (d0 d1 d2 : ℚ)
    (i0 i1 i2 : Nat) (st : HullState)
    (h : classify d0 d1 d2 = Classification.Straddle) :
    ∃ a b c : DistEntry, ∃ p q : ContourPoint,
      [a, b, c].Perm [⟨v0, d0, i0⟩, ⟨v1, d1, i1⟩, ⟨v2, d2, i2⟩] ∧
      mathSign a.d = mathSign b.d ∧ mathSign c.d ≠ mathSign a.d ∧
      (splitTriangle nrm v0 v1 v2 d0 d1 d2 i0 i1 i2 st).upperContour
        = st.upperContour ++ [p, q] ∧
      (splitTriangle nrm v0 v1 v2 d0 d1 d2 i0 i1 i2 st).lowerContour
        = st.lowerContour ++ [p, q] ∧
      (p.edgeVerts = (a.i, c.i) ∨ p.edgeVerts = (c.i, a.i)) ∧
      (q.edgeVerts = (b.i, c.i) ∨ q.edgeVerts = (c.i, b.i)) ∧
      (p.position = (interpolateVertex nrm a.v c.v
          (|a.d| / (|a.d| + |c.d|))).position ∨
       p.position = (interpolateVertex nrm c.v a.v
          (|c.d| / (|c.d| + |a.d|))).position) ∧
      (q.position = (interpolateVertex nrm b.v c.v
          (|b.d| / (|b.d| + |c.d|))).position ∨
       q.position = (interpolateVertex nrm c.v b.v
          (|c.d| / (|c.d| + |b.d|))).position) ∧
      (((splitTriangle nrm v0 v1 v2 d0 d1 d2 i0 i1 i2 st).upperVerts.length
          = st.upperVerts.length + 6 ∧
        (splitTriangle nrm v0 v1 v2 d0 d1 d2 i0 i1 i2 st).upperIndices.length
          = st.upperIndices.length + 6 ∧
        (splitTriangle nrm v0 v1 v2 d0 d1 d2 i0 i1 i2 st).lowerVerts.length
          = st.lowerVerts.length + 3 ∧
        (splitTriangle nrm v0 v1 v2 d0 d1 d2 i0 i1 i2 st).lowerIndices.length
          = st.lowerIndices.length + 3 ∧
        a.v ∈ (splitTriangle nrm v0 v1 v2 d0 d1 d2 i0 i1 i2 st).upperVerts.drop
          st.upperVerts.length ∧
        b.v ∈ (splitTriangle nrm v0 v1 v2 d0 d1 d2 i0 i1 i2 st).upperVerts.drop
          st.upperVerts.length ∧
        c.v ∈ (splitTriangle nrm v0 v1 v2 d0 d1 d2 i0 i1 i2 st).lowerVerts.drop
          st.lowerVerts.length) ∨
       ((splitTriangle nrm v0 v1 v2 d0 d1 d2 i0 i1 i2 st).lowerVerts.length
          = st.lowerVerts.length + 6 ∧
        (splitTriangle nrm v0 v1 v2 d0 d1 d2 i0 i1 i2 st).lowerIndices.length
          = st.lowerIndices.length + 6 ∧
        (splitTriangle nrm v0 v1 v2 d0 d1 d2 i0 i1 i2 st).upperVerts.length
          = st.upperVerts.length + 3 ∧
        (splitTriangle nrm v0 v1 v2 d0 d1 d2 i0 i1 i2 st).upperIndices.length
          = st.upperIndices.length + 3 ∧
        a.v ∈ (splitTriangle nrm v0 v1 v2 d0 d1 d2 i0 i1 i2 st).lowerVerts.drop
          st.lowerVerts.length ∧
        b.v ∈ (splitTriangle nrm v0 v1 v2 d0 d1 d2 i0 i1 i2 st).lowerVerts.drop
          st.lowerVerts.length ∧
        c.v ∈ (splitTriangle nrm v0 v1 v2 d0 d1 d2 i0 i1 i2 st).upperVerts.drop
          st.upperVerts.length)) := by
  obtain ⟨a, b, c, I1, I2, p, q, hperm, hsab, hsca, hint, hst⟩ :=
    splitTriangle_spec nrm v0 v1 v2 d0 d1 d2 i0 i1 i2 st h
  refine ⟨a, b, c, p, q, hperm, hsab, hsca, ?_, ?_, ?_, ?_, ?_, ?_, ?_⟩
  · rcases hst with hst | hst | hst | hst <;> rw [hst] <;> simp
  · rcases hst with hst | hst | hst | hst <;> rw [hst] <;> simp
  · rcases hint with ⟨_, _, hp, _⟩ | ⟨_, _, hp, _⟩
    · exact Or.inl (by rw [hp])
    · exact Or.inr (by rw [hp])
  · rcases hint with ⟨_, _, _, hq⟩ | ⟨_, _, _, hq⟩
    · exact Or.inl (by rw [hq])
    · exact Or.inr (by rw [hq])
  · rcases hint with ⟨hI1, _, hp, _⟩ | ⟨hI1, _, hp, _⟩
    · exact Or.inl (by rw [hp, hI1])
    · exact Or.inr (by rw [hp, hI1])
  · rcases hint with ⟨_, hI2, _, hq⟩ | ⟨_, hI2, _, hq⟩
    · exact Or.inl (by rw [hq, hI2])
    · exact Or.inr (by rw [hq, hI2])
  · rcases hst with hst | hst | hst | hst
    · refine Or.inr ⟨?_, ?_, ?_, ?_, ?_, ?_, ?_⟩ <;> rw [hst] <;>
        simp [List.drop_left]
    · refine Or.inl ⟨?_, ?_, ?_, ?_, ?_, ?_, ?_⟩ <;> rw [hst] <;>
        simp [List.drop_left]
    · refine Or.inl ⟨?_, ?_, ?_, ?_, ?_, ?_, ?_⟩ <;> rw [hst] <;>
        simp [List.drop_left]
    · refine Or.inr ⟨?_, ?_, ?_, ?_, ?_, ?_, ?_⟩ <;> rw [hst] <;>
        simp [List.drop_left]

/-- An interpolated vertex built with the `|d_same| / (|d_same| + |d_opposite|)`
parameter lies exactly on the cut plane when the endpoint signs differ. -/
lemma interp_on_plane (pl : SlicePlane) (nrm : Vec3 → Vec3) (eS eO : DistEntry)
    (hS : eS.d = getSideOfPlane pl eS.v.position)
    (hO : eO.d = getSideOfPlane pl eO.v.position)
    (hsign : mathSign eS.d ≠ mathSign eO.d) :
    getSideOfPlane pl (interpolateVertex nrm eS.v eO.v
      (|eS.d| / (|eS.d| + |eO.d|))).position = 0 := by
  rw [getSideOfPlane_interpolate, ← hS, ← hO]
  exact lerp_param_zero hsign

/-- C3: each of the two vertices created for a straddling triangle is the
linear interpolation, along an edge whose endpoint distances have different
signs, at `t = |d_same| / (|d_same| + |d_opposite|)`; consequently (in exact
rational arithmetic) its signed distance to the cut plane is exactly `0`.
Both hulls' contours receive the same two new points. -/
theorem straddle_intersections_on_plane (pl : SlicePlane) (nrm : Vec3 → Vec3)
    (v0 v1 v2 : SliceVertex) (d0 d1 d2 : ℚ) (i0 i1 i2 : Nat) (st : HullState)
    (hd0 : d0 = getSideOfPlane pl v0.position)
    (hd1 : d1 = getSideOfPlane pl v1.position)
    (hd2 : d2 = getSideOfPlane pl v2.position)
    (h : classify d0 d1 d2 = Classification.Straddle) :
    (splitTriangle nrm v0 v1 v2 d0 d1 d2 i0 i1 i2 st).lowerContour.drop
        st.lowerContour.length
      = (splitTriangle nrm v0 v1 v2 d0 d1 d2 i0 i1 i2 st).upperContour.drop
        st.upperContour.length ∧
    ((splitTriangle nrm v0 v1 v2 d0 d1 d2 i0 i1 i2 st).upperContour.drop
        st.upperContour.length).length = 2 ∧
    ∀ cp ∈ (splitTriangle nrm v0 v1 v2 d0 d1 d2 i0 i1 i2 st).upperContour.drop
        st.upperContour.length,
      (∃ eS eO : DistEntry,
        eS ∈ [(⟨v0, d0, i0⟩ : DistEntry), ⟨v1, d1, i1⟩, ⟨v2, d2, i2⟩] ∧
        eO ∈ [(⟨v0, d0, i0⟩ : DistEntry), ⟨v1, d1, i1⟩, ⟨v2, d2, i2⟩] ∧
        mathSign eS.d ≠ mathSign eO.d ∧
        cp.position = (interpolateVertex nrm eS.v eO.v
          (|eS.d| / (|eS.d| + |eO.d|))).position) ∧
      getSideOfPlane pl cp.position = 0 := by
  obtain ⟨a, b, c, I1, I2, p, q, hperm, hsab, hsca, hint, hst⟩ :=
    splitTriangle_spec nrm v0 v1 v2 d0 d1 d2 i0 i1 i2 st h
  have hmem : ∀ e : DistEntry,
      e ∈ [(⟨v0, d0, i0⟩ : DistEntry), ⟨v1, d1, i1⟩, ⟨v2, d2, i2⟩] →
        e.d = getSideOfPlane pl e.v.position := by
    intro e he
    simp only [List.mem_cons, List.not_mem_nil, or_false] at he
    rcases he with rfl | rfl | rfl
    · exact hd0
    · exact hd1
    · exact hd2
  have haIn : a ∈ [(⟨v0, d0, i0⟩ : DistEntry), ⟨v1, d1, i1⟩, ⟨v2, d2, i2⟩] :=
    hperm.subset (by simp)
  have hbIn : b ∈ [(⟨v0, d0, i0⟩ : DistEntry), ⟨v1, d1, i1⟩, ⟨v2, d2, i2⟩] :=
    hperm.subset (by simp)
  have hcIn : c ∈ [(⟨v0, d0, i0⟩ : DistEntry), ⟨v1, d1, i1⟩, ⟨v2, d2, i2⟩] :=
    hperm.subset (by simp)
  have hdrop_up : (splitTriangle nrm v0 v1 v2 d0 d1 d2 i0 i1 i2 st).upperContour.drop
      st.upperContour.length = [p, q] := by
    rcases hst with hst | hst | hst | hst <;> rw [hst] <;> simp [List.drop_left]
  have hdrop_low : (splitTriangle nrm v0 v1 v2 d0 d1 d2 i0 i1 i2 st).lowerContour.drop
      st.lowerContour.length = [p, q] := by
    rcases hst with hst | hst | hst | hst <;> rw [hst] <;> simp [List.drop_left]
  refine ⟨by rw [hdrop_up, hdrop_low], by rw [hdrop_up]; rfl, ?_⟩
  intro cp hcp
  rw [hdrop_up] at hcp
  simp only [List.mem_cons, List.not_mem_nil, or_false] at hcp
  rcases hint with ⟨hI1, hI2, hp, hq⟩ | ⟨hI1, hI2, hp, hq⟩
  · rcases hcp with rfl | rfl
    · refine ⟨⟨a, c, haIn, hcIn, Ne.symm hsca, by rw [hp, hI1]⟩, ?_⟩
      rw [hp]
      show getSideOfPlane pl I1.position = 0
      rw [hI1]
      exact interp_on_plane pl nrm a c (hmem a haIn) (hmem c hcIn) (Ne.symm hsca)
    · have hsbc : mathSign b.d ≠ mathSign c.d := by omega
      refine ⟨⟨b, c, hbIn, hcIn, hsbc, by rw [hq, hI2]⟩, ?_⟩
      rw [hq]
      show getSideOfPlane pl I2.position = 0
      rw [hI2]
      exact interp_on_plane pl nrm b c (hmem b hbIn) (hmem c hcIn) hsbc
  · rcases hcp with rfl | rfl
    · refine ⟨⟨c, a, hcIn, haIn, hsca, by rw [hp, hI1]⟩, ?_⟩
      rw [hp]
      show getSideOfPlane pl I1.position = 0
      rw [hI1]
      exact interp_on_plane pl nrm c a (hmem c hcIn) (hmem a haIn) hsca
    · have hscb : mathSign c.d ≠ mathSign b.d := by omega
      refine ⟨⟨c, b, hcIn, hbIn, hscb, by rw [hq, hI2]⟩, ?_⟩
      rw [hq]
      show getSideOfPlane pl I2.position = 0
      rw [hI2]
      exact interp_on_plane pl nrm c b (hmem c hcIn) (hmem b hbIn) hscb

/-! ### Concrete example inputs used by witnesses and counterexamples -/

/-- Horizontal cut plane through the origin (`slicePlaneNormal = [0,1,0]`,
`planePoint = [0,0,0]`). -/
def exPlane : SlicePlane := ⟨⟨0, 1, 0⟩, ⟨0, 0, 0⟩⟩

def exV0 : SliceVertex := ⟨⟨0, 1, 0⟩, none, none⟩

def exV1 : SliceVertex := ⟨⟨1, -1, 0⟩, none, none⟩

def exV2 : SliceVertex := ⟨⟨0, -2, 0⟩, none, none⟩

/-- Witness for C2 at a concrete straddling triangle (distances `1, -1, -2`). -/
theorem straddle_split_three_triangles_witness :
    classify 1 (-1) (-2) = Classification.Straddle ∧
    (∃ a b c : DistEntry, ∃ p q : ContourPoint,
      [a, b, c].Perm [⟨exV0, 1, 0⟩, ⟨exV1, -1, 1⟩, ⟨exV2, -2, 2⟩] ∧
      mathSign a.d = mathSign b.d ∧ mathSign c.d ≠ mathSign a.d ∧
      (splitTriangle (fun x => x) exV0 exV1 exV2 1 (-1) (-2) 0 1 2
          emptyHullState).upperContour
        = emptyHullState.upperContour ++ [p, q] ∧
      (splitTriangle (fun x => x) exV0 exV1 exV2 1 (-1) (-2) 0 1 2
          emptyHullState).lowerContour
        = emptyHullState.lowerContour ++ [p, q] ∧
      (p.edgeVerts = (a.i, c.i) ∨ p.edgeVerts = (c.i, a.i)) ∧
      (q.edgeVerts = (b.i, c.i) ∨ q.edgeVerts = (c.i, b.i)) ∧
      (p.position = (interpolateVertex (fun x => x) a.v c.v
          (|a.d| / (|a.d| + |c.d|))).position ∨
       p.position = (interpolateVertex (fun x => x) c.v a.v
          (|c.d| / (|c.d| + |a.d|))).position) ∧
      (q.position = (interpolateVertex (fun x => x) b.v c.v
          (|b.d| / (|b.d| + |c.d|))).position ∨
       q.position = (interpolateVertex (fun x => x) c.v b.v
          (|c.d| / (|c.d| + |b.d|))).position) ∧
      (((splitTriangle (fun x => x) exV0 exV1 exV2 1 (-1) (-2) 0 1 2
            emptyHullState).upperVerts.length
          = emptyHullState.upperVerts.length + 6 ∧
        (splitTriangle (fun x => x) exV0 exV1 exV2 1 (-1) (-2) 0 1 2
            emptyHullState).upperIndices.length
          = emptyHullState.upperIndices.length + 6 ∧
        (splitTriangle (fun x => x) exV0 exV1 exV2 1 (-1) (-2) 0 1 2
            emptyHullState).lowerVerts.length
          = emptyHullState.lowerVerts.length + 3 ∧
        (splitTriangle (fun x => x) exV0 exV1 exV2 1 (-1) (-2) 0 1 2
            emptyHullState).lowerIndices.length
          = emptyHullState.lowerIndices.length + 3 ∧
        a.v ∈ (splitTriangle (fun x => x) exV0 exV1 exV2 1 (-1) (-2) 0 1 2
            emptyHullState).upperVerts.drop emptyHullState.upperVerts.length ∧
        b.v ∈ (splitTriangle (fun x => x) exV0 exV1 exV2 1 (-1) (-2) 0 1 2
            emptyHullState).upperVerts.drop emptyHullState.upperVerts.length ∧
        c.v ∈ (splitTriangle (fun x => x) exV0 exV1 exV2 1 (-1) (-2) 0 1 2
            emptyHullState).lowerVerts.drop emptyHullState.lowerVerts.length) ∨
       ((splitTriangle (fun x => x) exV0 exV1 exV2 1 (-1) (-2) 0 1 2
            emptyHullState).lowerVerts.length
          = emptyHullState.lowerVerts.length + 6 ∧
        (splitTriangle (fun x => x) exV0 exV1 exV2 1 (-1) (-2) 0 1 2
            emptyHullState).lowerIndices.length
          = emptyHullState.lowerIndices.length + 6 ∧
        (splitTriangle (fun x => x) exV0 exV1 exV2 1 (-1) (-2) 0 1 2
            emptyHullState).upperVerts.length
          = emptyHullState.upperVerts.length + 3 ∧
        (splitTriangle (fun x => x) exV0 exV1 exV2 1 (-1) (-2) 0 1 2
            emptyHullState).upperIndices.length
          = emptyHullState.upperIndices.length + 3 ∧
        a.v ∈ (splitTriangle (fun x => x) exV0 exV1 exV2 1 (-1) (-2) 0 1 2
            emptyHullState).lowerVerts.drop emptyHullState.lowerVerts.length ∧
        b.v ∈ (splitTriangle (fun x => x) exV0 exV1 exV2 1 (-1) (-2) 0 1 2
            emptyHullState).lowerVerts.drop emptyHullState.lowerVerts.length ∧
        c.v ∈ (splitTriangle (fun x => x) exV0 exV1 exV2 1 (-1) (-2) 0 1 2
            emptyHullState).upperVerts.drop emptyHullState.upperVerts.length))) :=
  ⟨by decide, straddle_split_three_triangles_two_contour_points (fun x => x)
    exV0 exV1 exV2 1 (-1) (-2) 0 1 2 emptyHullState (by decide)⟩

/-- Witness for C3 at the same concrete straddling triangle. -/
theorem straddle_intersections_witness :
    (1 : ℚ) = getSideOfPlane exPlane exV0.position ∧
    (-1 : ℚ) = getSideOfPlane exPlane exV1.position ∧
    (-2 : ℚ) = getSideOfPlane exPlane exV2.position ∧
    classify 1 (-1) (-2) = Classification.Straddle ∧
    ((splitTriangle (fun x => x) exV0 exV1 exV2 1 (-1) (-2) 0 1 2
        emptyHullState).lowerContour.drop emptyHullState.lowerContour.length
      = (splitTriangle (fun x => x) exV0 exV1 exV2 1 (-1) (-2) 0 1 2
        emptyHullState).upperContour.drop emptyHullState.upperContour.length ∧
    ((splitTriangle (fun x => x) exV0 exV1 exV2 1 (-1) (-2) 0 1 2
        emptyHullState).upperContour.drop
        emptyHullState.upperContour.length).length = 2 ∧
    ∀ cp ∈ (splitTriangle (fun x => x) exV0 exV1 exV2 1 (-1) (-2) 0 1 2
        emptyHullState).upperContour.drop emptyHullState.upperContour.length,
      (∃ eS eO : DistEntry,
        eS ∈ [(⟨exV0, 1, 0⟩ : DistEntry), ⟨exV1, -1, 1⟩, ⟨exV2, -2, 2⟩] ∧
        eO ∈ [(⟨exV0, 1, 0⟩ : DistEntry), ⟨exV1, -1, 1⟩, ⟨exV2, -2, 2⟩] ∧
        mathSign eS.d ≠ mathSign eO.d ∧
        cp.position = (interpolateVertex (fun x => x) eS.v eO.v
          (|eS.d| / (|eS.d| + |eO.d|))).position) ∧
      getSideOfPlane exPlane cp.position = 0) :=
  ⟨by norm_num [getSideOfPlane, exPlane, exV0],
    by norm_num [getSideOfPlane, exPlane, exV1],
    by norm_num [getSideOfPlane, exPlane, exV2], by decide,
    straddle_intersections_on_plane exPlane (fun x => x) exV0 exV1 exV2
      1 (-1) (-2) 0 1 2 emptyHullState
      (by norm_num [getSideOfPlane, exPlane, exV0])
      (by norm_num [getSideOfPlane, exPlane, exV1])
      (by norm_num [getSideOfPlane, exPlane, exV2])
      (by decide)⟩

/-- C1: classification is decided by the sum of the three distance signs —
sum `= 3` iff `AllAbove` (whole triangle to the upper hull), `= -3` iff
`AllBelow` (whole triangle to the lower hull), sum `= 0` with at least one
sign exactly `0` iff `OnPlane` (whole triangle to the upper hull), and every
other case iff `Straddle` (the triangle is handed to `splitTriangle`); the
four conditions are mutually exclusive and exhaustive, so exactly one case
applies to each triangle. -/
theorem classification_by_sign_sum :
    (∀ d0 d1 d2 : ℚ,
      (classify d0 d1 d2 = Classification.AllAbove ↔
        mathSign d0 + mathSign d1 + mathSign d2 = 3) ∧
      (classify d0 d1 d2 = Classification.AllBelow ↔
        mathSign d0 + mathSign d1 + mathSign d2 = -3) ∧
      (classify d0 d1 d2 = Classification.OnPlane ↔
        (mathSign d0 + mathSign d1 + mathSign d2 = 0 ∧
         (mathSign d0 = 0 ∨ mathSign d1 = 0 ∨ mathSign d2 = 0))) ∧
      (classify d0 d1 d2 = Classification.Straddle ↔
        (¬(mathSign d0 + mathSign d1 + mathSign d2 = 3) ∧
         ¬(mathSign d0 + mathSign d1 + mathSign d2 = -3) ∧
         ¬(mathSign d0 + mathSign d1 + mathSign d2 = 0 ∧
           (mathSign d0 = 0 ∨ mathSign d1 = 0 ∨ mathSign d2 = 0))))) ∧
    (∀ (pl : SlicePlane) (nrm : Vec3 → Vec3) (positions : List Vec3)
        (normals : Option (List Vec3)) (texCoords : Option (List Vec2))
        (st : HullState) (a0 a1 a2 : Nat),
      (classify
          (getSideOfPlane pl (getVertexData a0 positions normals texCoords).position)
          (getSideOfPlane pl (getVertexData a1 positions normals texCoords).position)
          (getSideOfPlane pl (getVertexData a2 positions normals texCoords).position)
          = Classification.AllAbove →
        processTriangle pl nrm positions normals texCoords st (a0, a1, a2)
          = st.addUpper (getVertexData a0 positions normals texCoords)
              (getVertexData a1 positions normals texCoords)
              (getVertexData a2 positions normals texCoords)) ∧
      (classify
          (getSideOfPlane pl (getVertexData a0 positions normals texCoords).position)
          (getSideOfPlane pl (getVertexData a1 positions normals texCoords).position)
          (getSideOfPlane pl (getVertexData a2 positions normals texCoords).position)
          = Classification.AllBelow →
        processTriangle pl nrm positions normals texCoords st (a0, a1, a2)
          = st.addLower (getVertexData a0 positions normals texCoords)
              (getVertexData a1 positions normals texCoords)
              (getVertexData a2 positions normals texCoords)) ∧
      (classify
          (getSideOfPlane pl (getVertexData a0 positions normals texCoords).position)
          (getSideOfPlane pl (getVertexData a1 positions normals texCoords).position)
          (getSideOfPlane pl (getVertexData a2 positions normals texCoords).position)
          = Classification.OnPlane →
        processTriangle pl nrm positions normals texCoords st (a0, a1, a2)
          = st.addUpper (getVertexData a0 positions normals texCoords)
              (getVertexData a1 positions normals texCoords)
              (getVertexData a2 positions normals texCoords)) ∧
      (classify
          (getSideOfPlane pl (getVertexData a0 positions normals texCoords).position)
          (getSideOfPlane pl (getVertexData a1 positions normals texCoords).position)
          (getSideOfPlane pl (getVertexData a2 positions normals texCoords).position)
          = Classification.Straddle →
        processTriangle pl nrm positions normals texCoords st (a0, a1, a2)
          = splitTriangle nrm (getVertexData a0 positions normals texCoords)
              (getVertexData a1 positions normals texCoords)
              (getVertexData a2 positions normals texCoords)
              (getSideOfPlane pl (getVertexData a0 positions normals texCoords).position)
              (getSideOfPlane pl (getVertexData a1 positions normals texCoords).position)
              (getSideOfPlane pl (getVertexData a2 positions normals texCoords).position)
              a0 a1 a2 st)) := by
  constructor
  · intro d0 d1 d2
    exact ⟨classify_eq_allAbove_iff d0 d1 d2, classify_eq_allBelow_iff d0 d1 d2,
      classify_eq_onPlane_iff d0 d1 d2, classify_eq_straddle_iff d0 d1 d2⟩
  · intro pl nrm positions normals texCoords st a0 a1 a2
    refine ⟨fun hcl => ?_, fun hcl => ?_, fun hcl => ?_, fun hcl => ?_⟩ <;>
      unfold processTriangle <;> dsimp only <;> rw [hcl]

def exPositionsAbove : List Vec3 := [⟨0, 1, 0⟩, ⟨1, 1, 0⟩, ⟨0, 1, 1⟩]

/-- Witness for C1: a concrete all-above triangle is classified `AllAbove`
and copied whole into the upper hull. -/
theorem classification_witness :
    classify 1 1 1 = Classification.AllAbove ∧
    processTriangle exPlane (fun x => x) exPositionsAbove none none
        emptyHullState (0, 1, 2)
      = emptyHullState.addUpper (getVertexData 0 exPositionsAbove none none)
          (getVertexData 1 exPositionsAbove none none)
          (getVertexData 2 exPositionsAbove none none) := by
  have h := classification_by_sign_sum
  constructor
  · exact (h.1 1 1 1).1.mpr (by decide)
  · have e0 : getSideOfPlane exPlane
        (getVertexData 0 exPositionsAbove none none).position = 1 := by
      norm_num [getSideOfPlane, exPlane, getVertexData, exPositionsAbove]
    have e1 : getSideOfPlane exPlane
        (getVertexData 1 exPositionsAbove none none).position = 1 := by
      norm_num [getSideOfPlane, exPlane, getVertexData, exPositionsAbove]
    have e2 : getSideOfPlane exPlane
        (getVertexData 2 exPositionsAbove none none).position = 1 := by
      norm_num [getSideOfPlane, exPlane, getVertexData, exPositionsAbove]
    exact (h.2 exPlane (fun x => x) exPositionsAbove none none
      emptyHullState 0 1 2).1 (by rw [e0, e1, e2]; decide)

def exPosCross : List Vec3 := [⟨0, 1, 0⟩, ⟨0, -1, 0⟩, ⟨1, 0, 0⟩]

/-- C8 (code bug): the triangle with signed distances `1, -1, 0` — one vertex
strictly above the plane and one strictly below, so the triangle *crosses*
the plane — has sign sum `0` with one sign exactly `0` and is therefore
classified `OnPlane` and copied whole into the upper hull without being
split, contradicting the intent that `OnPlane` triangles touch but do not
cross. -/
theorem onPlane_classified_triangle_crosses_plane :
    getSideOfPlane exPlane ⟨0, 1, 0⟩ = 1 ∧
    getSideOfPlane exPlane ⟨0, -1, 0⟩ = -1 ∧
    getSideOfPlane exPlane ⟨1, 0, 0⟩ = 0 ∧
    (0 : ℚ) < getSideOfPlane exPlane ⟨0, 1, 0⟩ ∧
    getSideOfPlane exPlane ⟨0, -1, 0⟩ < 0 ∧
    classify 1 (-1) 0 = Classification.OnPlane ∧
    processTriangle exPlane (fun x => x) exPosCross none none
        emptyHullState (0, 1, 2)
      = emptyHullState.addUpper ⟨⟨0, 1, 0⟩, none, none⟩
          ⟨⟨0, -1, 0⟩, none, none⟩ ⟨⟨1, 0, 0⟩, none, none⟩ := by
  have e0 : getSideOfPlane exPlane
      (getVertexData 0 exPosCross none none).position = 1 := by
    norm_num [getSideOfPlane, exPlane, getVertexData, exPosCross]
  have e1 : getSideOfPlane exPlane
      (getVertexData 1 exPosCross none none).position = -1 := by
    norm_num [getSideOfPlane, exPlane, getVertexData, exPosCross]
  have e2 : getSideOfPlane exPlane
      (getVertexData 2 exPosCross none none).position = 0 := by
    norm_num [getSideOfPlane, exPlane, getVertexData, exPosCross]
  refine ⟨by norm_num [getSideOfPlane, exPlane],
    by norm_num [getSideOfPlane, exPlane],
    by norm_num [getSideOfPlane, exPlane],
    by norm_num [getSideOfPlane, exPlane],
    by norm_num [getSideOfPlane, exPlane], by decide, ?_⟩
  unfold processTriangle
  dsimp only
  rw [e0, e1, e2, show classify 1 (-1) 0 = Classification.OnPlane by decide]
  norm_num [getVertexData, exPosCross]

/-- C4 (code bug): for the straddling triangle `exV0, exV1, exV2` (distances
`1, -1, -2`), whose distance-sort is an odd permutation of the input order,
the first sub-triangle emitted into the lower hull has orientation `(0,0,2)`
while the original triangle has orientation `(0,0,-3)` — the winding order of
this sub-triangle is reversed relative to the triangle it was cut from. -/
theorem split_subtriangle_winding_flipped :
    triangleOrientation exV0.position exV1.position exV2.position
      = ⟨0, 0, -3⟩ ∧
    (splitTriangle (fun x => x) exV0 exV1 exV2 1 (-1) (-2) 0 1 2
        emptyHullState).lowerVerts.take 3
      = [exV2, exV1, ⟨⟨0, 0, 0⟩, none, none⟩] ∧
    triangleOrientation exV2.position exV1.position (⟨0, 0, 0⟩ : Vec3)
      = ⟨0, 0, 2⟩ ∧
    Vec3.dot ⟨0, 0, -3⟩ ⟨0, 0, 2⟩ < 0 := by
  refine ⟨?_, ?_, ?_, ?_⟩
  · norm_num [triangleOrientation, Vec3.cross, Vec3.sub, exV0, exV1, exV2]
  · norm_num [splitTriangle, splitTriangleSorted, sort3, interpolateVertex,
      HullState.addLower, HullState.addUpper, HullState.pushContour,
      addTriangle, emptyHullState, exV0, exV1, exV2, mathSign]
  · norm_num [triangleOrientation, Vec3.cross, Vec3.sub, exV1, exV2]
  · norm_num [Vec3.dot]

/-- A triangle classified `AllAbove` or `OnPlane` is routed entirely to the
upper hull: the lower hull's vertex list is untouched. -/
lemma processTriangle_preserves_lower (pl : SlicePlane) (nrm : Vec3 → Vec3)
    (positions : List Vec3) (normals : Option (List Vec3))
    (texCoords : Option (List Vec2)) (st : HullState) (tri : Nat × Nat × Nat)
    (h : classify
        (getSideOfPlane pl (getVertexData tri.1 positions normals texCoords).position)
        (getSideOfPlane pl (getVertexData tri.2.1 positions normals texCoords).position)
        (getSideOfPlane pl (getVertexData tri.2.2 positions normals texCoords).position)
        = Classification.AllAbove ∨
      classify
        (getSideOfPlane pl (getVertexData tri.1 positions normals texCoords).position)
        (getSideOfPlane pl (getVertexData tri.2.1 positions normals texCoords).position)
        (getSideOfPlane pl (getVertexData tri.2.2 positions normals texCoords).position)
        = Classification.OnPlane) :
    (processTriangle pl nrm positions normals texCoords st tri).lowerVerts
      = st.lowerVerts := by
  unfold processTriangle
  dsimp only
  rcases h with hcl | hcl <;> rw [hcl] <;> simp

/-- If every triangle is classified `AllAbove` or `OnPlane`, the triangle
loop never touches the lower hull. -/
lemma sliceAccum_lower_nil (pl : SlicePlane) (nrm : Vec3 → Vec3)
    (positions : List Vec3) (normals : Option (List Vec3))
    (texCoords : Option (List Vec2)) (indices : List Nat)
    (h : ∀ tri ∈ triples indices,
      classify
        (getSideOfPlane pl (getVertexData tri.1 positions normals texCoords).position)
        (getSideOfPlane pl (getVertexData tri.2.1 positions normals texCoords).position)
        (getSideOfPlane pl (getVertexData tri.2.2 positions normals texCoords).position)
        = Classification.AllAbove ∨
      classify
        (getSideOfPlane pl (getVertexData tri.1 positions normals texCoords).position)
        (getSideOfPlane pl (getVertexData tri.2.1 positions normals texCoords).position)
        (getSideOfPlane pl (getVertexData tri.2.2 positions normals texCoords).position)
        = Classification.OnPlane) :
    (sliceAccum pl nrm positions normals texCoords indices).lowerVerts = [] := by
  unfold sliceAccum
  suffices hgen : ∀ (l : List (Nat × Nat × Nat)) (st : HullState),
      (∀ tri ∈ l,
        classify
          (getSideOfPlane pl (getVertexData tri.1 positions normals texCoords).position)
          (getSideOfPlane pl (getVertexData tri.2.1 positions normals texCoords).position)
          (getSideOfPlane pl (getVertexData tri.2.2 positions normals texCoords).position)
          = Classification.AllAbove ∨
        classify
          (getSideOfPlane pl (getVertexData tri.1 positions normals texCoords).position)
          (getSideOfPlane pl (getVertexData tri.2.1 positions normals texCoords).position)
          (getSideOfPlane pl (getVertexData tri.2.2 positions normals texCoords).position)
          = Classification.OnPlane) →
      (l.foldl (processTriangle pl nrm positions normals texCoords) st).lowerVerts
        = st.lowerVerts by
    exact hgen (triples indices) emptyHullState h
  intro l
  induction l with
  | nil => intro st _; rfl
  | cons hd tl ih =>
    intro st hall
    rw [List.foldl_cons,
      ih _ (fun t ht => hall t (List.mem_cons_of_mem _ ht)),
      processTriangle_preserves_lower pl nrm positions normals texCoords st hd
        (hall hd (List.mem_cons_self _ _))]

/-- A triangle classified `AllBelow` is routed entirely to the lower hull:
the upper hull's vertex list is untouched. -/
lemma processTriangle_preserves_upper (pl : SlicePlane) (nrm : Vec3 → Vec3)
    (positions : List Vec3) (normals : Option (List Vec3))
    (texCoords : Option (List Vec2)) (st : HullState) (tri : Nat × Nat × Nat)
    (h : classify
        (getSideOfPlane pl (getVertexData tri.1 positions normals texCoords).position)
        (getSideOfPlane pl (getVertexData tri.2.1 positions normals texCoords).position)
        (getSideOfPlane pl (getVertexData tri.2.2 positions normals texCoords).position)
        = Classification.AllBelow) :
    (processTriangle pl nrm positions normals texCoords st tri).upperVerts
      = st.upperVerts := by
  unfold processTriangle
  dsimp only
  rw [h]
  simp

/-- If every triangle is classified `AllBelow`, the triangle loop never
touches the upper hull. -/
lemma sliceAccum_upper_nil (pl : SlicePlane) (nrm : Vec3 → Vec3)
    (positions : List Vec3) (normals : Option (List Vec3))
    (texCoords : Option (List Vec2)) (indices : List Nat)
    (h : ∀ tri ∈ triples indices,
      classify
        (getSideOfPlane pl (getVertexData tri.1 positions normals texCoords).position)
        (getSideOfPlane pl (getVertexData tri.2.1 positions normals texCoords).position)
        (getSideOfPlane pl (getVertexData tri.2.2 positions normals texCoords).position)
        = Classification.AllBelow) :
    (sliceAccum pl nrm positions normals texCoords indices).upperVerts = [] := by
  unfold sliceAccum
  suffices hgen : ∀ (l : List (Nat × Nat × Nat)) (st : HullState),
      (∀ tri ∈ l,
        classify
          (getSideOfPlane pl (getVertexData tri.1 positions normals texCoords).position)
          (getSideOfPlane pl (getVertexData tri.2.1 positions normals texCoords).position)
          (getSideOfPlane pl (getVertexData tri.2.2 positions normals texCoords).position)
          = Classification.AllBelow) →
      (l.foldl (processTriangle pl nrm positions normals texCoords) st).upperVerts
        = st.upperVerts by
    exact hgen (triples indices) emptyHullState h
  intro l
  induction l with
  | nil => intro st _; rfl
  | cons hd tl ih =>
    intro st hall
    rw [List.foldl_cons,
      ih _ (fun t ht => hall t (List.mem_cons_of_mem _ ht)),
      processTriangle_preserves_upper pl nrm positions normals texCoords st hd
        (hall hd (List.mem_cons_self _ _))]

/-- C7 (amended): when every triangle falls in one classification — either
all of them `AllAbove`/`OnPlane` (routed to the upper hull) or all of them
`AllBelow` (routed to the lower hull) — the other hull's buffers stay empty
and `sliceMesh` takes the `console.warn` path and returns `null`; it does
not return a pair of hulls with one of them empty. -/
theorem degenerate_cut_warns_and_returns_null (pl : SlicePlane)
    (nrm : Vec3 → Vec3) (positions : List Vec3) (normals : Option (List Vec3))
    (texCoords : Option (List Vec2)) (indices : List Nat)
    (h : (∀ tri ∈ triples indices,
      classify
        (getSideOfPlane pl (getVertexData tri.1 positions normals texCoords).position)
        (getSideOfPlane pl (getVertexData tri.2.1 positions normals texCoords).position)
        (getSideOfPlane pl (getVertexData tri.2.2 positions normals texCoords).position)
        = Classification.AllAbove ∨
      classify
        (getSideOfPlane pl (getVertexData tri.1 positions normals texCoords).position)
        (getSideOfPlane pl (getVertexData tri.2.1 positions normals texCoords).position)
        (getSideOfPlane pl (getVertexData tri.2.2 positions normals texCoords).position)
        = Classification.OnPlane) ∨
      (∀ tri ∈ triples indices,
      classify
        (getSideOfPlane pl (getVertexData tri.1 positions normals texCoords).position)
        (getSideOfPlane pl (getVertexData tri.2.1 positions normals texCoords).position)
        (getSideOfPlane pl (getVertexData tri.2.2 positions normals texCoords).position)
        = Classification.AllBelow)) :
    ((sliceAccum pl nrm positions normals texCoords indices).lowerVerts = [] ∨
     (sliceAccum pl nrm positions normals texCoords indices).upperVerts = []) ∧
    sliceMesh pl nrm ⟨some positions, normals, texCoords, some indices⟩ = none := by
  rcases h with h | h
  · have hlow := sliceAccum_lower_nil pl nrm positions normals texCoords indices h
    refine ⟨Or.inl hlow, ?_⟩
    unfold sliceMesh
    dsimp only
    rw [if_pos (Or.inr (by rw [hlow]; rfl))]
  · have hup := sliceAccum_upper_nil pl nrm positions normals texCoords indices h
    refine ⟨Or.inr hup, ?_⟩
    unfold sliceMesh
    dsimp only
    rw [if_pos (Or.inl (by rw [hup]; rfl))]

def exMeshAbove : InputMesh := ⟨some exPositionsAbove, none, none, some [0, 1, 2]⟩

/-- C7 (counterexample to the claim as stated): for a mesh lying entirely
above the plane, `sliceMesh` returns `null` — no result carrying one full
hull and one empty hull is produced. -/
theorem degenerate_cut_produces_no_hulls :
    sliceMesh exPlane (fun x => x) exMeshAbove = none ∧
    ∀ r : SliceResult, sliceMesh exPlane (fun x => x) exMeshAbove ≠ some r := by
  have e0 : getSideOfPlane exPlane
      (getVertexData 0 exPositionsAbove none none).position = 1 := by
    norm_num [getSideOfPlane, exPlane, getVertexData, exPositionsAbove]
  have e1 : getSideOfPlane exPlane
      (getVertexData 1 exPositionsAbove none none).position = 1 := by
    norm_num [getSideOfPlane, exPlane, getVertexData, exPositionsAbove]
  have e2 : getSideOfPlane exPlane
      (getVertexData 2 exPositionsAbove none none).position = 1 := by
    norm_num [getSideOfPlane, exPlane, getVertexData, exPositionsAbove]
  have hstep : processTriangle exPlane (fun x => x) exPositionsAbove none none
      emptyHullState (0, 1, 2)
      = emptyHullState.addUpper (getVertexData 0 exPositionsAbove none none)
          (getVertexData 1 exPositionsAbove none none)
          (getVertexData 2 exPositionsAbove none none) := by
    unfold processTriangle
    dsimp only
    rw [e0, e1, e2, show classify 1 1 1 = Classification.AllAbove from by decide]
  have hacc : sliceAccum exPlane (fun x => x) exPositionsAbove none none
      [0, 1, 2]
      = emptyHullState.addUpper (getVertexData 0 exPositionsAbove none none)
          (getVertexData 1 exPositionsAbove none none)
          (getVertexData 2 exPositionsAbove none none) := by
    unfold sliceAccum
    rw [show triples [0, 1, 2] = [(0, 1, 2)] from rfl, List.foldl_cons,
      List.foldl_nil]
    exact hstep
  have hnone : sliceMesh exPlane (fun x => x) exMeshAbove = none := by
    unfold sliceMesh exMeshAbove
    dsimp only
    rw [hacc]
    simp [emptyHullState]
  exact ⟨hnone, fun r hr => by rw [hnone] at hr; exact Option.noConfusion hr⟩

/-- Witness for the amended C7 at a concrete one-triangle mesh lying entirely
above the plane. -/
theorem degenerate_cut_witness :
    ((∀ tri ∈ triples [0, 1, 2],
      classify
        (getSideOfPlane exPlane
          (getVertexData tri.1 exPositionsAbove none none).position)
        (getSideOfPlane exPlane
          (getVertexData tri.2.1 exPositionsAbove none none).position)
        (getSideOfPlane exPlane
          (getVertexData tri.2.2 exPositionsAbove none none).position)
        = Classification.AllAbove ∨
      classify
        (getSideOfPlane exPlane
          (getVertexData tri.1 exPositionsAbove none none).position)
        (getSideOfPlane exPlane
          (getVertexData tri.2.1 exPositionsAbove none none).position)
        (getSideOfPlane exPlane
          (getVertexData tri.2.2 exPositionsAbove none none).position)
        = Classification.OnPlane) ∨
     (∀ tri ∈ triples [0, 1, 2],
      classify
        (getSideOfPlane exPlane
          (getVertexData tri.1 exPositionsAbove none none).position)
        (getSideOfPlane exPlane
          (getVertexData tri.2.1 exPositionsAbove none none).position)
        (getSideOfPlane exPlane
          (getVertexData tri.2.2 exPositionsAbove none none).position)
        = Classification.AllBelow)) ∧
    ((sliceAccum exPlane (fun x => x) exPositionsAbove none none
        [0, 1, 2]).lowerVerts = [] ∨
     (sliceAccum exPlane (fun x => x) exPositionsAbove none none
        [0, 1, 2]).upperVerts = []) ∧
    sliceMesh exPlane (fun x => x)
      ⟨some exPositionsAbove, none, none, some [0, 1, 2]⟩ = none := by
  have e0 : getSideOfPlane exPlane
      (getVertexData 0 exPositionsAbove none none).position = 1 := by
    norm_num [getSideOfPlane, exPlane, getVertexData, exPositionsAbove]
  have e1 : getSideOfPlane exPlane
      (getVertexData 1 exPositionsAbove none none).position = 1 := by
    norm_num [getSideOfPlane, exPlane, getVertexData, exPositionsAbove]
  have e2 : getSideOfPlane exPlane
      (getVertexData 2 exPositionsAbove none none).position = 1 := by
    norm_num [getSideOfPlane, exPlane, getVertexData, exPositionsAbove]
  have hh : ∀ tri ∈ triples [0, 1, 2],
      classify
        (getSideOfPlane exPlane
          (getVertexData tri.1 exPositionsAbove none none).position)
        (getSideOfPlane exPlane
          (getVertexData tri.2.1 exPositionsAbove none none).position)
        (getSideOfPlane exPlane
          (getVertexData tri.2.2 exPositionsAbove none none).position)
        = Classification.AllAbove ∨
      classify
        (getSideOfPlane exPlane
          (getVertexData tri.1 exPositionsAbove none none).position)
        (getSideOfPlane exPlane
          (getVertexData tri.2.1 exPositionsAbove none none).position)
        (getSideOfPlane exPlane
          (getVertexData tri.2.2 exPositionsAbove none none).position)
        = Classification.OnPlane := by
    intro tri htri
    have : tri = (0, 1, 2) := by
      simpa [triples] using htri
    subst this
    left
    dsimp only
    rw [e0, e1, e2]
    decide
  exact ⟨Or.inl hh, degenerate_cut_warns_and_returns_null exPlane (fun x => x)
    exPositionsAbove none none [0, 1, 2] (Or.inl hh)⟩

/-- The deduplication fold only appends to its accumulator, and what it
appends is a sublist (order-preserving selection) of the input. -/
lemma dedupFold_append (l : List ContourPoint) :
    ∀ acc : List ContourPoint,
      ∃ s : List ContourPoint,
        l.foldl (fun uniqueContour pt =>
          if isDuplicatePoint uniqueContour pt then uniqueContour
          else uniqueContour ++ [pt]) acc = acc ++ s ∧ s.Sublist l := by
  induction l with
  | nil => intro acc; exact ⟨[], by simp, List.Sublist.slnil⟩
  | cons hd tl ih =>
    intro acc
    rw [List.foldl_cons]
    by_cases hdup : isDuplicatePoint acc hd
    · rw [if_pos hdup]
      obtain ⟨s, hs1, hs2⟩ := ih acc
      exact ⟨s, hs1, List.Sublist.cons hd hs2⟩
    · rw [if_neg hdup]
      obtain ⟨s, hs1, hs2⟩ := ih (acc ++ [hd])
      refine ⟨hd :: s, ?_, List.Sublist.cons₂ hd hs2⟩
      rw [hs1, List.append_assoc]
      rfl

/-- The kept points are pairwise at squared distance at least
`epsilon * epsilon` from each other. -/
lemma dedupFold_pairwise (l : List ContourPoint) :
    ∀ acc : List ContourPoint,
      List.Pairwise (fun aP bP =>
        ¬(sqDist aP.position bP.position < capEpsilon * capEpsilon)) acc →
      List.Pairwise (fun aP bP =>
        ¬(sqDist aP.position bP.position < capEpsilon * capEpsilon))
        (l.foldl (fun uniqueContour pt =>
          if isDuplicatePoint uniqueContour pt then uniqueContour
          else uniqueContour ++ [pt]) acc) := by
  induction l with
  | nil => intro acc hacc; simpa using hacc
  | cons hd tl ih =>
    intro acc hacc
    rw [List.foldl_cons]
    by_cases hdup : isDuplicatePoint acc hd
    · rw [if_pos hdup]; exact ih acc hacc
    · rw [if_neg hdup]
      refine ih (acc ++ [hd]) ?_
      rw [List.pairwise_append]
      refine ⟨hacc, List.pairwise_singleton _ _, ?_⟩
      intro a ha b hb
      simp only [List.mem_singleton] at hb
      subst hb
      intro hnear
      apply hdup
      unfold isDuplicatePoint
      rw [List.any_eq_true]
      exact ⟨a, ha, by simpa using hnear⟩

/-- Every input point either survives deduplication or lies within epsilon of
a surviving point (first-seen wins). -/
lemma dedupFold_covers (l : List ContourPoint) :
    ∀ acc : List ContourPoint, ∀ pt ∈ l,
      pt ∈ (l.foldl (fun uniqueContour pt =>
          if isDuplicatePoint uniqueContour pt then uniqueContour
          else uniqueContour ++ [pt]) acc) ∨
      ∃ e ∈ (l.foldl (fun uniqueContour pt =>
          if isDuplicatePoint uniqueContour pt then uniqueContour
          else uniqueContour ++ [pt]) acc),
        sqDist e.position pt.position < capEpsilon * capEpsilon := by
  induction l with
  | nil => intro acc pt hpt; exact absurd hpt (List.not_mem_nil pt)
  | cons hd tl ih =>
    intro acc pt hpt
    rw [List.foldl_cons]
    rcases List.mem_cons.mp hpt with rfl | hptl
    · by_cases hdup : isDuplicatePoint acc pt
      · rw [if_pos hdup]
        right
        unfold isDuplicatePoint at hdup
        rw [List.any_eq_true] at hdup
        obtain ⟨e, he, hnear⟩ := hdup
        obtain ⟨s, hs1, _⟩ := dedupFold_append tl acc
        exact ⟨e, by rw [hs1]; exact List.mem_append_left s he,
          by simpa using hnear⟩
      · rw [if_neg hdup]
        left
        obtain ⟨s, hs1, _⟩ := dedupFold_append tl (acc ++ [pt])
        rw [hs1]
        exact List.mem_append_left s (List.mem_append_right acc (by simp))
    · by_cases hdup : isDuplicatePoint acc hd
      · rw [if_pos hdup]; exact ih acc pt hptl
      · rw [if_neg hdup]; exact ih (acc ++ [hd]) pt hptl

/-- C6: `generateCap` deduplicates the contour by squared distance strictly
below the fixed `epsilon * epsilon` with the first-seen point winning (the
result is an order-preserving selection of the contour, its members are
pairwise at least epsilon apart, and every dropped point is within epsilon of
a kept one), and when fewer than 3 unique points remain it returns with the
hull's vertex and index lists unchanged — no error, a total function. -/
theorem generateCap_dedup_small_contour_unchanged (pl : SlicePlane)
    (vertices : List SliceVertex) (indices : List Nat)
    (contour : List ContourPoint) (isUpper : Bool) :
    (dedupContour contour).Sublist contour ∧
    List.Pairwise (fun aP bP =>
      ¬(sqDist aP.position bP.position < capEpsilon * capEpsilon))
      (dedupContour contour) ∧
    (∀ pt ∈ contour, pt ∈ dedupContour contour ∨
      ∃ e ∈ dedupContour contour,
        sqDist e.position pt.position < capEpsilon * capEpsilon) ∧
    ((dedupContour contour).length < 3 →
      generateCap pl vertices indices contour isUpper = (vertices, indices)) := by
  refine ⟨?_, ?_, ?_, ?_⟩
  · obtain ⟨s, hs1, hs2⟩ := dedupFold_append contour []
    unfold dedupContour
    rw [hs1]
    simpa using hs2
  · exact dedupFold_pairwise contour [] (List.Pairwise.nil)
  · exact dedupFold_covers contour []
  · intro h3
    unfold generateCap
    by_cases hc : contour.length < 3
    · rw [if_pos hc]
    · rw [if_neg hc]
      dsimp only
      rw [if_pos h3]

/-- Deduplication keeps an order-preserving selection of the contour. -/
lemma dedupContour_sublist (contour : List ContourPoint) :
    (dedupContour contour).Sublist contour := by
  obtain ⟨s, hs1, hs2⟩ := dedupFold_append contour []
  unfold dedupContour
  rw [hs1]
  simpa using hs2

/-- The incremental centroid accumulation of `generateCap` computes the
componentwise sum of the contour positions. -/
lemma vec3_foldl_add (l : List ContourPoint) :
    ∀ init : Vec3,
      l.foldl (fun acc pt => acc.add pt.position) init
        = ⟨init.x + (l.map (fun pt => pt.position.x)).sum,
           init.y + (l.map (fun pt => pt.position.y)).sum,
           init.z + (l.map (fun pt => pt.position.z)).sum⟩ := by
  induction l with
  | nil => intro init; simp
  | cons hd tl ih =>
    intro init
    rw [List.foldl_cons, ih]
    simp only [Vec3.add, List.map_cons, List.sum_cons, Vec3.mk.injEq]
    refine ⟨by ring, by ring, by ring⟩


/-- Extracting the `i`-th block of a flattened list of 3-element blocks. -/
lemma flatten_drop_take :
    ∀ L : List (List Nat), (∀ x ∈ L, x.length = 3) →
      ∀ i, i < L.length → (L.flatten.drop (3 * i)).take 3 = L.getD i [] := by
  intro L
  induction L with
  | nil => intro _ i hi; simp at hi
  | cons hd tl ih =>
    intro h i hi
    have hh : hd.length = 3 := h hd (List.mem_cons_self _ _)
    cases i with
    | zero =>
      rw [List.flatten_cons]
      simp only [Nat.mul_zero, List.drop_zero]
      rw [← hh, List.take_left]
      rfl
    | succ n =>
      rw [List.flatten_cons]
      have h3 : 3 * (n + 1) = hd.length + 3 * n := by rw [hh]; ring
      rw [h3, List.drop_append]
      rw [ih (fun x hx => h x (List.mem_cons_of_mem _ hx)) n (by simpa using hi)]
      rfl

/-- A flattened list of 3-element blocks has length `3 *` the block count. -/
lemma length_flatten_of_all3 :
    ∀ L : List (List Nat), (∀ x ∈ L, x.length = 3) →
      L.flatten.length = 3 * L.length := by
  intro L
  induction L with
  | nil => intro _; rfl
  | cons hd tl ih =>
    intro h
    rw [List.flatten_cons, List.length_append, h hd (List.mem_cons_self _ _),
      ih (fun x hx => h x (List.mem_cons_of_mem _ hx)), List.length_cons]
    ring

lemma getD_map_range {α : Type} (f : Nat → α) (d : α) (n i : Nat) (h : i < n) :
    ((List.range n).map f).getD i d = f i := by
  rw [List.getD_eq_getElem _ d (by simpa using h), List.getElem_map,
    List.getElem_range]

/-- C5: with at least 3 unique contour points, `generateCap` appends one
centroid vertex whose position is the arithmetic mean of the unique contour
positions, then one vertex per unique contour point, all carrying the cap
normal (the plane normal for the upper hull, its negation for the lower
hull), and appends exactly `n` fan triangles `(centroid, contour[i],
contour[(i+1) % n])`, with the winding of every fan triangle reversed
between the upper-hull fan and the lower-hull fan. -/
theorem generateCap_fan_structure (pl : SlicePlane) (vertices : List SliceVertex)
    (indices : List Nat) (contour : List ContourPoint) (isUpper : Bool)
    (h3 : 3 ≤ (dedupContour contour).length) :
    (generateCap pl vertices indices contour isUpper).1
      = vertices
        ++ (⟨⟨((dedupContour contour).map (fun pt => pt.position.x)).sum
                / ((dedupContour contour).length : ℚ),
              ((dedupContour contour).map (fun pt => pt.position.y)).sum
                / ((dedupContour contour).length : ℚ),
              ((dedupContour contour).map (fun pt => pt.position.z)).sum
                / ((dedupContour contour).length : ℚ)⟩,
            some (if isUpper then pl.normal else pl.normal.neg),
            some ⟨1/2, 1/2⟩⟩
          :: (dedupContour contour).map (fun pt =>
              (⟨pt.position,
                some (if isUpper then pl.normal else pl.normal.neg),
                some ⟨1/2, 1/2⟩⟩ : SliceVertex))) ∧
    (∀ v ∈ (generateCap pl vertices indices contour isUpper).1.drop
        vertices.length,
      v.normal = some (if isUpper then pl.normal else pl.normal.neg)) ∧
    (generateCap pl vertices indices contour isUpper).2.length
      = indices.length + 3 * (dedupContour contour).length ∧
    ∀ i, i < (dedupContour contour).length →
      (((generateCap pl vertices indices contour isUpper).2.drop
          (indices.length + 3 * i)).take 3)
        = (if isUpper
           then [vertices.length, vertices.length + 1 + i,
                 vertices.length + 1 + ((i + 1) % (dedupContour contour).length)]
           else [vertices.length,
                 vertices.length + 1 + ((i + 1) % (dedupContour contour).length),
                 vertices.length + 1 + i]) := by
  have hsub := dedupContour_sublist contour
  have hclen : ¬(contour.length < 3) := by
    have := hsub.length_le
    omega
  have hulen : ¬((dedupContour contour).length < 3) := by omega
  unfold generateCap
  rw [if_neg hclen]
  dsimp only
  rw [if_neg hulen]
  refine ⟨?_, ?_, ?_, ?_⟩
  · rw [vec3_foldl_add]
    simp [Vec3.zero]
  · rw [List.append_assoc, List.drop_left]
    intro v hv
    simp only [List.singleton_append, List.mem_cons, List.mem_map] at hv
    rcases hv with rfl | ⟨pt, _, rfl⟩ <;> rfl
  · rw [List.length_append, length_flatten_of_all3]
    · simp
    · intro x hx
      simp only [List.mem_map] at hx
      obtain ⟨j, _, rfl⟩ := hx
      by_cases hU : isUpper = true <;> simp [hU]
  · intro i hi
    rw [List.drop_append (3 * i), flatten_drop_take _ ?_ i (by simpa using hi),
      getD_map_range _ _ _ _ hi]
    · by_cases hU : isUpper = true <;> simp [hU, List.length_append]
    · intro x hx
      simp only [List.mem_map] at hx
      obtain ⟨j, _, rfl⟩ := hx
      by_cases hU : isUpper = true <;> simp [hU]

def exContourDup : List ContourPoint :=
  [⟨⟨0, 0, 0⟩, (0, 1)⟩, ⟨⟨0, 0, 0⟩, (0, 1)⟩, ⟨⟨0, 0, 0⟩, (2, 3)⟩]

/-- Witness for C6: a contour of three coincident points deduplicates to a
single point, and `generateCap` leaves the buffers unchanged. -/
theorem generateCap_dedup_witness :
    (dedupContour exContourDup).length < 3 ∧
    generateCap exPlane [] [] exContourDup true = ([], []) := by
  have hlen : (dedupContour exContourDup).length < 3 := by
    norm_num [dedupContour, exContourDup, isDuplicatePoint, sqDist, capEpsilon]
  exact ⟨hlen, (generateCap_dedup_small_contour_unchanged exPlane [] []
    exContourDup true).2.2.2 hlen⟩

def exContourTri : List ContourPoint :=
  [⟨⟨0, 0, 0⟩, (0, 1)⟩, ⟨⟨1, 0, 0⟩, (1, 2)⟩, ⟨⟨0, 0, 1⟩, (2, 3)⟩]

/-- Witness for C5: three well-separated contour points survive
deduplication and the cap structure theorem applies. -/
theorem generateCap_fan_witness :
    3 ≤ (dedupContour exContourTri).length ∧
    ((generateCap exPlane [] [] exContourTri true).1
      = []
        ++ (⟨⟨((dedupContour exContourTri).map (fun pt => pt.position.x)).sum
                / ((dedupContour exContourTri).length : ℚ),
              ((dedupContour exContourTri).map (fun pt => pt.position.y)).sum
                / ((dedupContour exContourTri).length : ℚ),
              ((dedupContour exContourTri).map (fun pt => pt.position.z)).sum
                / ((dedupContour exContourTri).length : ℚ)⟩,
            some (if true then exPlane.normal else exPlane.normal.neg),
            some ⟨1/2, 1/2⟩⟩
          :: (dedupContour exContourTri).map (fun pt =>
              (⟨pt.position,
                some (if true then exPlane.normal else exPlane.normal.neg),
                some ⟨1/2, 1/2⟩⟩ : SliceVertex))) ∧
    (∀ v ∈ (generateCap exPlane [] [] exContourTri true).1.drop
        (List.length ([] : List SliceVertex)),
      v.normal = some (if true then exPlane.normal else exPlane.normal.neg)) ∧
    (generateCap exPlane [] [] exContourTri true).2.length
      = (List.length ([] : List Nat)) + 3 * (dedupContour exContourTri).length ∧
    ∀ i, i < (dedupContour exContourTri).length →
      (((generateCap exPlane [] [] exContourTri true).2.drop
          ((List.length ([] : List Nat)) + 3 * i)).take 3)
        = (if true
           then [List.length ([] : List SliceVertex),
                 List.length ([] : List SliceVertex) + 1 + i,
                 List.length ([] : List SliceVertex) + 1
                   + ((i + 1) % (dedupContour exContourTri).length)]
           else [List.length ([] : List SliceVertex),
                 List.length ([] : List SliceVertex) + 1
                   + ((i + 1) % (dedupContour exContourTri).length),
                 List.length ([] : List SliceVertex) + 1 + i])) := by
  have hlen : 3 ≤ (dedupContour exContourTri).length := by
    norm_num [dedupContour, exContourTri, isDuplicatePoint, sqDist, capEpsilon]
  exact ⟨hlen, generateCap_fan_structure exPlane [] [] exContourTri true hlen⟩

/-- The invariant maintained by the triangle loop before capping: each hull's
index buffer is exactly `0, 1, ..., len-1` and the vertex count is a
multiple of 3. -/
def PrecapInv (st : HullState) : Prop :=
  st.upperIndices = List.range st.upperVerts.length ∧
  st.lowerIndices = List.range st.lowerVerts.length ∧
  st.upperVerts.length % 3 = 0 ∧
  st.lowerVerts.length % 3 = 0

lemma range_add_three (n : Nat) :
    List.range (n + 3) = List.range n ++ [n, n + 1, n + 2] := by
  rw [show n + 3 = (n + 2) + 1 from rfl, List.range_succ,
    show n + 2 = (n + 1) + 1 from rfl, List.range_succ, List.range_succ]
  simp

lemma addUpper_precapInv (st : HullState) (v0 v1 v2 : SliceVertex)
    (h : PrecapInv st) : PrecapInv (st.addUpper v0 v1 v2) := by
  obtain ⟨h1, h2, h3, h4⟩ := h
  refine ⟨?_, by simpa using h2, ?_, by simpa using h4⟩
  · simp [h1, List.length_append, range_add_three]
  · simp only [addUpper_upperVerts, List.length_append, List.length_cons,
      List.length_nil]
    omega

lemma addLower_precapInv (st : HullState) (v0 v1 v2 : SliceVertex)
    (h : PrecapInv st) : PrecapInv (st.addLower v0 v1 v2) := by
  obtain ⟨h1, h2, h3, h4⟩ := h
  refine ⟨by simpa using h1, ?_, by simpa using h3, ?_⟩
  · simp [h2, List.length_append, range_add_three]
  · simp only [addLower_lowerVerts, List.length_append, List.length_cons,
      List.length_nil]
    omega

lemma pushContour_precapInv (st : HullState) (p q : ContourPoint)
    (h : PrecapInv st) : PrecapInv (st.pushContour p q) := h

lemma splitTriangle_precapInv (nrm : Vec3 → Vec3) (v0 v1 v2 : SliceVertex)
    (d0 d1 d2 : ℚ) (i0 i1 i2 : Nat) (st : HullState) (h : PrecapInv st) :
    PrecapInv (splitTriangle nrm v0 v1 v2 d0 d1 d2 i0 i1 i2 st) := by
  unfold splitTriangle splitTriangleSorted
  dsimp only
  split_ifs <;> apply pushContour_precapInv <;>
    (repeat first | apply addUpper_precapInv | apply addLower_precapInv) <;>
    exact h

lemma processTriangle_precapInv (pl : SlicePlane) (nrm : Vec3 → Vec3)
    (positions : List Vec3) (normals : Option (List Vec3))
    (texCoords : Option (List Vec2)) (st : HullState) (tri : Nat × Nat × Nat)
    (h : PrecapInv st) :
    PrecapInv (processTriangle pl nrm positions normals texCoords st tri) := by
  unfold processTriangle
  dsimp only
  split
  · exact addUpper_precapInv _ _ _ _ h
  · exact addLower_precapInv _ _ _ _ h
  · exact addUpper_precapInv _ _ _ _ h
  · exact splitTriangle_precapInv _ _ _ _ _ _ _ _ _ _ _ h

lemma sliceAccum_precapInv (pl : SlicePlane) (nrm : Vec3 → Vec3)
    (positions : List Vec3) (normals : Option (List Vec3))
    (texCoords : Option (List Vec2)) (indices : List Nat) :
    PrecapInv (sliceAccum pl nrm positions normals texCoords indices) := by
  unfold sliceAccum
  suffices hgen : ∀ (l : List (Nat × Nat × Nat)) (st : HullState), PrecapInv st →
      PrecapInv (l.foldl (processTriangle pl nrm positions normals texCoords) st) by
    exact hgen (triples indices) emptyHullState ⟨rfl, rfl, rfl, rfl⟩
  intro l
  induction l with
  | nil => intro st hst; exact hst
  | cons hd tl ih =>
    intro st hst
    rw [List.foldl_cons]
    exact ih _ (processTriangle_precapInv pl nrm positions normals texCoords
      st hd hst)

/-- C10: every triangle emitted before capping appends three fresh vertices
and the three consecutive indices `(len, len+1, len+2)`; consequently, after
the triangle loop and before capping, each hull's index buffer is exactly the
sequence `0, 1, ..., 3T-1`, no vertex is shared between triangles, and the
vertex count equals exactly 3 times the triangle count. -/
theorem precap_vertices_fresh_and_sequential (pl : SlicePlane)
    (nrm : Vec3 → Vec3) (positions : List Vec3) (normals : Option (List Vec3))
    (texCoords : Option (List Vec2)) (indices : List Nat) :
    (∀ (vs : List SliceVertex) (idxs : List Nat) (v0 v1 v2 : SliceVertex),
      addTriangle vs idxs v0 v1 v2
        = (vs ++ [v0, v1, v2],
           idxs ++ [vs.length, vs.length + 1, vs.length + 2])) ∧
    (sliceAccum pl nrm positions normals texCoords indices).upperIndices
      = List.range
        (sliceAccum pl nrm positions normals texCoords indices).upperVerts.length ∧
    (sliceAccum pl nrm positions normals texCoords indices).lowerIndices
      = List.range
        (sliceAccum pl nrm positions normals texCoords indices).lowerVerts.length ∧
    (sliceAccum pl nrm positions normals texCoords indices).upperVerts.length
      = 3 * ((sliceAccum pl nrm positions normals texCoords
          indices).upperIndices.length / 3) ∧
    (sliceAccum pl nrm positions normals texCoords indices).lowerVerts.length
      = 3 * ((sliceAccum pl nrm positions normals texCoords
          indices).lowerIndices.length / 3) := by
  obtain ⟨h1, h2, h3, h4⟩ :=
    sliceAccum_precapInv pl nrm positions normals texCoords indices
  refine ⟨fun vs idxs v0 v1 v2 => rfl, h1, h2, ?_, ?_⟩
  · rw [h1, List.length_range]
    omega
  · rw [h2, List.length_range]
    omega

/-- Every vertex of the list carries both optional attributes. -/
def AttrAll (vs : List SliceVertex) : Prop :=
  ∀ v ∈ vs, v.normal.isSome = true ∧ v.texCoord.isSome = true

lemma attrAll_append (l1 l2 : List SliceVertex) (h1 : AttrAll l1)
    (h2 : AttrAll l2) : AttrAll (l1 ++ l2) := by
  intro v hv
  rcases List.mem_append.mp hv with h | h
  · exact h1 v h
  · exact h2 v h

lemma attrAll_three (x y z : SliceVertex)
    (hx : x.normal.isSome = true ∧ x.texCoord.isSome = true)
    (hy : y.normal.isSome = true ∧ y.texCoord.isSome = true)
    (hz : z.normal.isSome = true ∧ z.texCoord.isSome = true) :
    AttrAll [x, y, z] := by
  intro v hv
  simp only [List.mem_cons, List.not_mem_nil, or_false] at hv
  rcases hv with rfl | rfl | rfl <;> assumption

/-- Interpolating two fully-attributed vertices yields a fully-attributed
vertex (both optional attributes are produced when both inputs have them). -/
lemma interpolateVertex_attrs (nrm : Vec3 → Vec3) (u w : SliceVertex) (t : ℚ)
    (hu : u.normal.isSome = true ∧ u.texCoord.isSome = true)
    (hw : w.normal.isSome = true ∧ w.texCoord.isSome = true) :
    (interpolateVertex nrm u w t).normal.isSome = true ∧
    (interpolateVertex nrm u w t).texCoord.isSome = true := by
  obtain ⟨n1, hn1⟩ := Option.isSome_iff_exists.mp hu.1
  obtain ⟨t1, ht1⟩ := Option.isSome_iff_exists.mp hu.2
  obtain ⟨n2, hn2⟩ := Option.isSome_iff_exists.mp hw.1
  obtain ⟨t2, ht2⟩ := Option.isSome_iff_exists.mp hw.2
  simp [interpolateVertex, hn1, hn2, ht1, ht2]

lemma splitTriangle_attrAll (nrm : Vec3 → Vec3) (v0 v1 v2 : SliceVertex)
    (d0 d1 d2 : ℚ) (i0 i1 i2 : Nat) (st : HullState)
    (hcl : classify d0 d1 d2 = Classification.Straddle)
    (h0 : v0.normal.isSome = true ∧ v0.texCoord.isSome = true)
    (h1 : v1.normal.isSome = true ∧ v1.texCoord.isSome = true)
    (h2 : v2.normal.isSome = true ∧ v2.texCoord.isSome = true)
    (hup : AttrAll st.upperVerts) (hlow : AttrAll st.lowerVerts) :
    AttrAll (splitTriangle nrm v0 v1 v2 d0 d1 d2 i0 i1 i2 st).upperVerts ∧
    AttrAll (splitTriangle nrm v0 v1 v2 d0 d1 d2 i0 i1 i2 st).lowerVerts := by
  obtain ⟨a, b, c, I1, I2, p, q, hperm, _, _, hint, hst⟩ :=
    splitTriangle_spec nrm v0 v1 v2 d0 d1 d2 i0 i1 i2 st hcl
  have hin : ∀ e : DistEntry,
      e ∈ [(⟨v0, d0, i0⟩ : DistEntry), ⟨v1, d1, i1⟩, ⟨v2, d2, i2⟩] →
        e.v.normal.isSome = true ∧ e.v.texCoord.isSome = true := by
    intro e he
    simp only [List.mem_cons, List.not_mem_nil, or_false] at he
    rcases he with rfl | rfl | rfl
    · exact h0
    · exact h1
    · exact h2
  have haA := hin a (hperm.subset (by simp))
  have hbA := hin b (hperm.subset (by simp))
  have hcA := hin c (hperm.subset (by simp))
  have hI1 : I1.normal.isSome = true ∧ I1.texCoord.isSome = true := by
    rcases hint with ⟨hI, _, _, _⟩ | ⟨hI, _, _, _⟩ <;> rw [hI]
    · exact interpolateVertex_attrs nrm _ _ _ haA hcA
    · exact interpolateVertex_attrs nrm _ _ _ hcA haA
  have hI2 : I2.normal.isSome = true ∧ I2.texCoord.isSome = true := by
    rcases hint with ⟨_, hI, _, _⟩ | ⟨_, hI, _, _⟩ <;> rw [hI]
    · exact interpolateVertex_attrs nrm _ _ _ hbA hcA
    · exact interpolateVertex_attrs nrm _ _ _ hcA hbA
  rcases hst with hst | hst | hst | hst <;> rw [hst] <;>
      simp only [pushContour_upperVerts, pushContour_lowerVerts,
        addUpper_upperVerts, addUpper_lowerVerts, addLower_upperVerts,
        addLower_lowerVerts]
  · exact ⟨attrAll_append _ _ hup (attrAll_three _ _ _ hI1 hI2 hcA),
      attrAll_append _ _ (attrAll_append _ _ hlow
        (attrAll_three _ _ _ haA hbA hI1))
        (attrAll_three _ _ _ hbA hI2 hI1)⟩
  · exact ⟨attrAll_append _ _ (attrAll_append _ _ hup
        (attrAll_three _ _ _ haA hbA hI1))
        (attrAll_three _ _ _ hbA hI2 hI1),
      attrAll_append _ _ hlow (attrAll_three _ _ _ hI1 hI2 hcA)⟩
  · exact ⟨attrAll_append _ _ (attrAll_append _ _ hup
        (attrAll_three _ _ _ hI1 haA hbA))
        (attrAll_three _ _ _ hI1 hbA hI2),
      attrAll_append _ _ hlow (attrAll_three _ _ _ hcA hI1 hI2)⟩
  · exact ⟨attrAll_append _ _ hup (attrAll_three _ _ _ hcA hI1 hI2),
      attrAll_append _ _ (attrAll_append _ _ hlow
        (attrAll_three _ _ _ hI1 haA hbA))
        (attrAll_three _ _ _ hI1 hbA hI2)⟩

lemma processTriangle_attrAll (pl : SlicePlane) (nrm : Vec3 → Vec3)
    (positions : List Vec3) (ns : List Vec3) (ts : List Vec2)
    (st : HullState) (tri : Nat × Nat × Nat)
    (hup : AttrAll st.upperVerts) (hlow : AttrAll st.lowerVerts) :
    AttrAll (processTriangle pl nrm positions (some ns) (some ts)
      st tri).upperVerts ∧
    AttrAll (processTriangle pl nrm positions (some ns) (some ts)
      st tri).lowerVerts := by
  have hva : ∀ i : Nat,
      (getVertexData i positions (some ns) (some ts)).normal.isSome = true ∧
      (getVertexData i positions (some ns) (some ts)).texCoord.isSome = true :=
    fun i => ⟨rfl, rfl⟩
  unfold processTriangle
  dsimp only
  cases hcl : classify
      (getSideOfPlane pl
        (getVertexData tri.1 positions (some ns) (some ts)).position)
      (getSideOfPlane pl
        (getVertexData tri.2.1 positions (some ns) (some ts)).position)
      (getSideOfPlane pl
        (getVertexData tri.2.2 positions (some ns) (some ts)).position) with
  | AllAbove =>
    dsimp only
    simp only [addUpper_upperVerts, addUpper_lowerVerts]
    exact ⟨attrAll_append _ _ hup (attrAll_three _ _ _ (hva _) (hva _) (hva _)),
      hlow⟩
  | AllBelow =>
    dsimp only
    simp only [addLower_upperVerts, addLower_lowerVerts]
    exact ⟨hup,
      attrAll_append _ _ hlow (attrAll_three _ _ _ (hva _) (hva _) (hva _))⟩
  | OnPlane =>
    dsimp only
    simp only [addUpper_upperVerts, addUpper_lowerVerts]
    exact ⟨attrAll_append _ _ hup (attrAll_three _ _ _ (hva _) (hva _) (hva _)),
      hlow⟩
  | Straddle =>
    dsimp only
    exact splitTriangle_attrAll nrm _ _ _ _ _ _ _ _ _ st hcl
      (hva _) (hva _) (hva _) hup hlow

lemma sliceAccum_attrAll (pl : SlicePlane) (nrm : Vec3 → Vec3)
    (positions : List Vec3) (ns : List Vec3) (ts : List Vec2)
    (indices : List Nat) :
    AttrAll (sliceAccum pl nrm positions (some ns) (some ts)
      indices).upperVerts ∧
    AttrAll (sliceAccum pl nrm positions (some ns) (some ts)
      indices).lowerVerts := by
  unfold sliceAccum
  suffices hgen : ∀ (l : List (Nat × Nat × Nat)) (st : HullState),
      AttrAll st.upperVerts → AttrAll st.lowerVerts →
      AttrAll ((l.foldl (processTriangle pl nrm positions (some ns) (some ts))
        st).upperVerts) ∧
      AttrAll ((l.foldl (processTriangle pl nrm positions (some ns) (some ts))
        st).lowerVerts) by
    exact hgen (triples indices) emptyHullState (fun v hv => absurd hv
      (List.not_mem_nil v)) (fun v hv => absurd hv (List.not_mem_nil v))
  intro l
  induction l with
  | nil => intro st h1 h2; exact ⟨h1, h2⟩
  | cons hd tl ih =>
    intro st h1 h2
    rw [List.foldl_cons]
    obtain ⟨h3, h4⟩ :=
      processTriangle_attrAll pl nrm positions ns ts st hd h1 h2
    exact ih _ h3 h4

lemma generateCap_attrAll (pl : SlicePlane) (vs : List SliceVertex)
    (idxs : List Nat) (c : List ContourPoint) (u : Bool) (h : AttrAll vs) :
    AttrAll (generateCap pl vs idxs c u).1 := by
  unfold generateCap
  by_cases hc1 : c.length < 3
  · rw [if_pos hc1]; exact h
  · rw [if_neg hc1]
    dsimp only
    by_cases hc2 : (dedupContour c).length < 3
    · rw [if_pos hc2]; exact h
    · rw [if_neg hc2]
      dsimp only
      refine attrAll_append _ _ (attrAll_append _ _ h ?_) ?_
      · intro v hv
        simp only [List.mem_singleton] at hv
        subst hv
        exact ⟨rfl, rfl⟩
      · intro v hv
        simp only [List.mem_map] at hv
        obtain ⟨pt, _, rfl⟩ := hv
        exact ⟨rfl, rfl⟩

/-- C9 (amended): when the input mesh carries normals and texture
coordinates, every vertex of both output hulls — sliced geometry and cap —
carries both attributes, so each output mesh is attribute-consistent. -/
theorem sliced_hulls_attribute_consistent_full_input (pl : SlicePlane)
    (nrm : Vec3 → Vec3) (positions : List Vec3) (ns : List Vec3)
    (ts : List Vec2) (indices : List Nat) (r : SliceResult)
    (h : sliceMesh pl nrm ⟨some positions, some ns, some ts, some indices⟩
      = some r) :
    (∀ v ∈ r.upperVerts, v.normal.isSome = true ∧ v.texCoord.isSome = true) ∧
    (∀ v ∈ r.lowerVerts, v.normal.isSome = true ∧ v.texCoord.isSome = true) := by
  unfold sliceMesh at h
  dsimp only at h
  by_cases hc : (sliceAccum pl nrm positions (some ns) (some ts)
        indices).upperVerts.length = 0 ∨
      (sliceAccum pl nrm positions (some ns) (some ts)
        indices).lowerVerts.length = 0
  · rw [if_pos hc] at h
    exact absurd h (by simp)
  · rw [if_neg hc] at h
    obtain ⟨hu, hl⟩ := sliceAccum_attrAll pl nrm positions ns ts indices
    injection h with h
    subst h
    exact ⟨fun v hv => generateCap_attrAll pl _ _ _ _ hu v hv,
      fun v hv => generateCap_attrAll pl _ _ _ _ hl v hv⟩

lemma generateCap_mem_old (pl : SlicePlane) (vs : List SliceVertex)
    (idxs : List Nat) (c : List ContourPoint) (u : Bool) (v : SliceVertex)
    (hv : v ∈ vs) : v ∈ (generateCap pl vs idxs c u).1 := by
  unfold generateCap
  by_cases h1 : c.length < 3
  · rw [if_pos h1]; exact hv
  · rw [if_neg h1]
    dsimp only
    by_cases h2 : (dedupContour c).length < 3
    · rw [if_pos h2]; exact hv
    · rw [if_neg h2]
      dsimp only
      exact List.mem_append_left _ (List.mem_append_left _ hv)

lemma generateCap_centroid_mem (pl : SlicePlane) (vs : List SliceVertex)
    (idxs : List Nat) (c : List ContourPoint) (u : Bool)
    (hc3 : ¬(c.length < 3)) (h3 : ¬((dedupContour c).length < 3)) :
    ∃ v ∈ (generateCap pl vs idxs c u).1,
      v.normal = some (if u then pl.normal else pl.normal.neg) := by
  unfold generateCap
  rw [if_neg hc3]
  dsimp only
  rw [if_neg h3]
  dsimp only
  exact ⟨_, List.mem_append_left _ (List.mem_append_right _
    (List.mem_singleton_self _)), rfl⟩

def exPos9 : List Vec3 := [⟨0, -1, 0⟩, ⟨2, 1, 0⟩, ⟨0, 1, 0⟩, ⟨0, 1, 2⟩]

/-- A two-triangle mesh with no normal and no texCoord attribute, straddling
the plane so that both hulls and a 3-point contour are produced. -/
def exMesh9 : InputMesh := ⟨some exPos9, none, none, some [0, 1, 2, 0, 2, 3]⟩

/-- State of the hull buffers after the first triangle of `exMesh9`. -/
def exS1 : HullState :=
  ⟨[⟨⟨1, 0, 0⟩, none, none⟩, ⟨⟨2, 1, 0⟩, none, none⟩, ⟨⟨0, 1, 0⟩, none, none⟩,
    ⟨⟨1, 0, 0⟩, none, none⟩, ⟨⟨0, 1, 0⟩, none, none⟩, ⟨⟨0, 0, 0⟩, none, none⟩],
   [⟨⟨0, -1, 0⟩, none, none⟩, ⟨⟨1, 0, 0⟩, none, none⟩, ⟨⟨0, 0, 0⟩, none, none⟩],
   [0, 1, 2, 3, 4, 5],
   [0, 1, 2],
   [⟨⟨1, 0, 0⟩, (0, 1)⟩, ⟨⟨0, 0, 0⟩, (0, 2)⟩],
   [⟨⟨1, 0, 0⟩, (0, 1)⟩, ⟨⟨0, 0, 0⟩, (0, 2)⟩]⟩

/-- State of the hull buffers after both triangles of `exMesh9`. -/
def exS2 : HullState :=
  ⟨[⟨⟨1, 0, 0⟩, none, none⟩, ⟨⟨2, 1, 0⟩, none, none⟩, ⟨⟨0, 1, 0⟩, none, none⟩,
    ⟨⟨1, 0, 0⟩, none, none⟩, ⟨⟨0, 1, 0⟩, none, none⟩, ⟨⟨0, 0, 0⟩, none, none⟩,
    ⟨⟨0, 0, 0⟩, none, none⟩, ⟨⟨0, 1, 0⟩, none, none⟩, ⟨⟨0, 1, 2⟩, none, none⟩,
    ⟨⟨0, 0, 0⟩, none, none⟩, ⟨⟨0, 1, 2⟩, none, none⟩, ⟨⟨0, 0, 1⟩, none, none⟩],
   [⟨⟨0, -1, 0⟩, none, none⟩, ⟨⟨1, 0, 0⟩, none, none⟩, ⟨⟨0, 0, 0⟩, none, none⟩,
    ⟨⟨0, -1, 0⟩, none, none⟩, ⟨⟨0, 0, 0⟩, none, none⟩, ⟨⟨0, 0, 1⟩, none, none⟩],
   [0, 1, 2, 3, 4, 5, 6, 7, 8, 9, 10, 11],
   [0, 1, 2, 3, 4, 5],
   [⟨⟨1, 0, 0⟩, (0, 1)⟩, ⟨⟨0, 0, 0⟩, (0, 2)⟩, ⟨⟨0, 0, 0⟩, (0, 2)⟩,
    ⟨⟨0, 0, 1⟩, (0, 3)⟩],
   [⟨⟨1, 0, 0⟩, (0, 1)⟩, ⟨⟨0, 0, 0⟩, (0, 2)⟩, ⟨⟨0, 0, 0⟩, (0, 2)⟩,
    ⟨⟨0, 0, 1⟩, (0, 3)⟩]⟩

/-- C9 (counterexample to the claim as stated): slicing `exMesh9`, whose
vertices carry no normals, succeeds and produces an upper hull mixing
vertices without a normal (sliced geometry) and vertices with a normal (cap
geometry) in the same output mesh. -/
theorem mixed_attribute_output :
    (sliceMesh exPlane (fun x => x) exMesh9).isSome = true ∧
    (∃ va ∈ ((sliceMesh exPlane (fun x => x) exMesh9).getD
        emptySliceResult).upperVerts, va.normal = none) ∧
    (∃ vb ∈ ((sliceMesh exPlane (fun x => x) exMesh9).getD
        emptySliceResult).upperVerts, ∃ nv : Vec3, vb.normal = some nv) := by
  have e0 : getSideOfPlane exPlane
      (getVertexData 0 exPos9 none none).position = -1 := by
    norm_num [getSideOfPlane, exPlane, getVertexData, exPos9]
  have e1 : getSideOfPlane exPlane
      (getVertexData 1 exPos9 none none).position = 1 := by
    norm_num [getSideOfPlane, exPlane, getVertexData, exPos9]
  have e2 : getSideOfPlane exPlane
      (getVertexData 2 exPos9 none none).position = 1 := by
    norm_num [getSideOfPlane, exPlane, getVertexData, exPos9]
  have e3 : getSideOfPlane exPlane
      (getVertexData 3 exPos9 none none).position = 1 := by
    norm_num [getSideOfPlane, exPlane, getVertexData, exPos9]
  have hv0 : getVertexData 0 exPos9 none none = ⟨⟨0, -1, 0⟩, none, none⟩ := by
    norm_num [getVertexData, exPos9]
  have hv1 : getVertexData 1 exPos9 none none = ⟨⟨2, 1, 0⟩, none, none⟩ := by
    norm_num [getVertexData, exPos9]
  have hv2 : getVertexData 2 exPos9 none none = ⟨⟨0, 1, 0⟩, none, none⟩ := by
    norm_num [getVertexData, exPos9]
  have hv3 : getVertexData 3 exPos9 none none = ⟨⟨0, 1, 2⟩, none, none⟩ := by
    norm_num [getVertexData, exPos9]
  have hstep1 : processTriangle exPlane (fun x => x) exPos9 none none
      emptyHullState (0, 1, 2) = exS1 := by
    unfold processTriangle
    dsimp only
    rw [e0, e1, e2,
      show classify (-1) 1 1 = Classification.Straddle from by decide,
      hv0, hv1, hv2]
    norm_num [splitTriangle, splitTriangleSorted, sort3, interpolateVertex,
      HullState.addLower, HullState.addUpper, HullState.pushContour,
      addTriangle, emptyHullState, mathSign, exS1]
  have hstep2 : processTriangle exPlane (fun x => x) exPos9 none none
      exS1 (0, 2, 3) = exS2 := by
    unfold processTriangle
    dsimp only
    rw [e0, e2, e3,
      show classify (-1) 1 1 = Classification.Straddle from by decide,
      hv0, hv2, hv3]
    norm_num [splitTriangle, splitTriangleSorted, sort3, interpolateVertex,
      HullState.addLower, HullState.addUpper, HullState.pushContour,
      addTriangle, mathSign, exS1, exS2]
  have hacc : sliceAccum exPlane (fun x => x) exPos9 none none
      [0, 1, 2, 0, 2, 3] = exS2 := by
    unfold sliceAccum
    rw [show triples [0, 1, 2, 0, 2, 3] = [(0, 1, 2), (0, 2, 3)] from rfl,
      List.foldl_cons, List.foldl_cons, List.foldl_nil, hstep1, hstep2]
  have hmesh : sliceMesh exPlane (fun x => x) exMesh9
      = some ⟨(generateCap exPlane exS2.upperVerts exS2.upperIndices
                 exS2.upperContour true).1,
              (generateCap exPlane exS2.upperVerts exS2.upperIndices
                 exS2.upperContour true).2,
              (generateCap exPlane exS2.lowerVerts exS2.lowerIndices
                 exS2.lowerContour false).1,
              (generateCap exPlane exS2.lowerVerts exS2.lowerIndices
                 exS2.lowerContour false).2⟩ := by
    unfold sliceMesh exMesh9
    dsimp only
    rw [hacc]
    rw [if_neg (by decide)]
  refine ⟨by rw [hmesh]; rfl, ?_, ?_⟩
  · rw [hmesh]
    refine ⟨⟨⟨1, 0, 0⟩, none, none⟩, ?_, rfl⟩
    show (⟨⟨1, 0, 0⟩, none, none⟩ : SliceVertex)
      ∈ (generateCap exPlane exS2.upperVerts exS2.upperIndices
          exS2.upperContour true).1
    exact generateCap_mem_old exPlane _ _ _ _ _ (List.mem_cons_self _ _)
  · rw [hmesh]
    have hc3 : ¬(exS2.upperContour.length < 3) := by decide
    have h3 : ¬((dedupContour exS2.upperContour).length < 3) := by
      norm_num [dedupContour, isDuplicatePoint, sqDist, capEpsilon, exS2]
    obtain ⟨v, hvmem, hvn⟩ := generateCap_centroid_mem exPlane
      exS2.upperVerts exS2.upperIndices exS2.upperContour true hc3 h3
    exact ⟨v, hvmem, exPlane.normal, by rw [hvn]; rfl⟩

def exPos9w : List Vec3 :=
  [⟨0, 1, 0⟩, ⟨1, 1, 0⟩, ⟨0, 1, 1⟩, ⟨0, -1, 0⟩, ⟨1, -1, 0⟩, ⟨0, -1, 1⟩]

def exNs9w : List Vec3 := [⟨0, 1, 0⟩]

def exTs9w : List Vec2 := [⟨7, 8⟩]

/-- Witness for the amended C9: a fully-attributed two-triangle mesh (one
triangle per side of the plane) slices into two hulls whose vertices all
carry both attributes. -/
theorem sliced_hulls_attribute_witness :
    sliceMesh exPlane (fun x => x)
        ⟨some exPos9w, some exNs9w, some exTs9w, some [0, 1, 2, 3, 4, 5]⟩
      = some ((sliceMesh exPlane (fun x => x)
          ⟨some exPos9w, some exNs9w, some exTs9w,
            some [0, 1, 2, 3, 4, 5]⟩).getD emptySliceResult) ∧
    (∀ v ∈ ((sliceMesh exPlane (fun x => x)
        ⟨some exPos9w, some exNs9w, some exTs9w,
          some [0, 1, 2, 3, 4, 5]⟩).getD emptySliceResult).upperVerts,
      v.normal.isSome = true ∧ v.texCoord.isSome = true) ∧
    (∀ v ∈ ((sliceMesh exPlane (fun x => x)
        ⟨some exPos9w, some exNs9w, some exTs9w,
          some [0, 1, 2, 3, 4, 5]⟩).getD emptySliceResult).lowerVerts,
      v.normal.isSome = true ∧ v.texCoord.isSome = true) := by
  have e0 : getSideOfPlane exPlane
      (getVertexData 0 exPos9w (some exNs9w) (some exTs9w)).position = 1 := by
    norm_num [getSideOfPlane, exPlane, getVertexData, exPos9w]
  have e1 : getSideOfPlane exPlane
      (getVertexData 1 exPos9w (some exNs9w) (some exTs9w)).position = 1 := by
    norm_num [getSideOfPlane, exPlane, getVertexData, exPos9w]
  have e2 : getSideOfPlane exPlane
      (getVertexData 2 exPos9w (some exNs9w) (some exTs9w)).position = 1 := by
    norm_num [getSideOfPlane, exPlane, getVertexData, exPos9w]
  have e3 : getSideOfPlane exPlane
      (getVertexData 3 exPos9w (some exNs9w) (some exTs9w)).position = -1 := by
    norm_num [getSideOfPlane, exPlane, getVertexData, exPos9w]
  have e4 : getSideOfPlane exPlane
      (getVertexData 4 exPos9w (some exNs9w) (some exTs9w)).position = -1 := by
    norm_num [getSideOfPlane, exPlane, getVertexData, exPos9w]
  have e5 : getSideOfPlane exPlane
      (getVertexData 5 exPos9w (some exNs9w) (some exTs9w)).position = -1 := by
    norm_num [getSideOfPlane, exPlane, getVertexData, exPos9w]
  have hstep1 : processTriangle exPlane (fun x => x) exPos9w (some exNs9w)
      (some exTs9w) emptyHullState (0, 1, 2)
      = emptyHullState.addUpper
          (getVertexData 0 exPos9w (some exNs9w) (some exTs9w))
          (getVertexData 1 exPos9w (some exNs9w) (some exTs9w))
          (getVertexData 2 exPos9w (some exNs9w) (some exTs9w)) := by
    unfold processTriangle
    dsimp only
    rw [e0, e1, e2, show classify 1 1 1 = Classification.AllAbove from by decide]
  have hstep2 : processTriangle exPlane (fun x => x) exPos9w (some exNs9w)
      (some exTs9w)
      (emptyHullState.addUpper
        (getVertexData 0 exPos9w (some exNs9w) (some exTs9w))
        (getVertexData 1 exPos9w (some exNs9w) (some exTs9w))
        (getVertexData 2 exPos9w (some exNs9w) (some exTs9w))) (3, 4, 5)
      = (emptyHullState.addUpper
          (getVertexData 0 exPos9w (some exNs9w) (some exTs9w))
          (getVertexData 1 exPos9w (some exNs9w) (some exTs9w))
          (getVertexData 2 exPos9w (some exNs9w) (some exTs9w))).addLower
          (getVertexData 3 exPos9w (some exNs9w) (some exTs9w))
          (getVertexData 4 exPos9w (some exNs9w) (some exTs9w))
          (getVertexData 5 exPos9w (some exNs9w) (some exTs9w)) := by
    unfold processTriangle
    dsimp only
    rw [e3, e4, e5,
      show classify (-1) (-1) (-1) = Classification.AllBelow from by decide]
  have hacc : sliceAccum exPlane (fun x => x) exPos9w (some exNs9w)
      (some exTs9w) [0, 1, 2, 3, 4, 5]
      = (emptyHullState.addUpper
          (getVertexData 0 exPos9w (some exNs9w) (some exTs9w))
          (getVertexData 1 exPos9w (some exNs9w) (some exTs9w))
          (getVertexData 2 exPos9w (some exNs9w) (some exTs9w))).addLower
          (getVertexData 3 exPos9w (some exNs9w) (some exTs9w))
          (getVertexData 4 exPos9w (some exNs9w) (some exTs9w))
          (getVertexData 5 exPos9w (some exNs9w) (some exTs9w)) := by
    unfold sliceAccum
    rw [show triples [0, 1, 2, 3, 4, 5] = [(0, 1, 2), (3, 4, 5)] from rfl,
      List.foldl_cons, List.foldl_cons, List.foldl_nil, hstep1, hstep2]
  have hmesh : sliceMesh exPlane (fun x => x)
      ⟨some exPos9w, some exNs9w, some exTs9w, some [0, 1, 2, 3, 4, 5]⟩
      = some ⟨(generateCap exPlane
          ((emptyHullState.addUpper
            (getVertexData 0 exPos9w (some exNs9w) (some exTs9w))
            (getVertexData 1 exPos9w (some exNs9w) (some exTs9w))
            (getVertexData 2 exPos9w (some exNs9w) (some exTs9w))).addLower
            (getVertexData 3 exPos9w (some exNs9w) (some exTs9w))
            (getVertexData 4 exPos9w (some exNs9w) (some exTs9w))
            (getVertexData 5 exPos9w (some exNs9w) (some exTs9w))).upperVerts
          ((emptyHullState.addUpper
            (getVertexData 0 exPos9w (some exNs9w) (some exTs9w))
            (getVertexData 1 exPos9w (some exNs9w) (some exTs9w))
            (getVertexData 2 exPos9w (some exNs9w) (some exTs9w))).addLower
            (getVertexData 3 exPos9w (some exNs9w) (some exTs9w))
            (getVertexData 4 exPos9w (some exNs9w) (some exTs9w))
            (getVertexData 5 exPos9w (some exNs9w) (some exTs9w))).upperIndices
          ((emptyHullState.addUpper
            (getVertexData 0 exPos9w (some exNs9w) (some exTs9w))
            (getVertexData 1 exPos9w (some exNs9w) (some exTs9w))
            (getVertexData 2 exPos9w (some exNs9w) (some exTs9w))).addLower
            (getVertexData 3 exPos9w (some exNs9w) (some exTs9w))
            (getVertexData 4 exPos9w (some exNs9w) (some exTs9w))
            (getVertexData 5 exPos9w (some exNs9w) (some exTs9w))).upperContour
          true).1,
        (generateCap exPlane
          ((emptyHullState.addUpper
            (getVertexData 0 exPos9w (some exNs9w) (some exTs9w))
            (getVertexData 1 exPos9w (some exNs9w) (some exTs9w))
            (getVertexData 2 exPos9w (some exNs9w) (some exTs9w))).addLower
            (getVertexData 3 exPos9w (some exNs9w) (some exTs9w))
            (getVertexData 4 exPos9w (some exNs9w) (some exTs9w))
            (getVertexData 5 exPos9w (some exNs9w) (some exTs9w))).upperVerts
          ((emptyHullState.addUpper
            (getVertexData 0 exPos9w (some exNs9w) (some exTs9w))
            (getVertexData 1 exPos9w (some exNs9w) (some exTs9w))
            (getVertexData 2 exPos9w (some exNs9w) (some exTs9w))).addLower
            (getVertexData 3 exPos9w (some exNs9w) (some exTs9w))
            (getVertexData 4 exPos9w (some exNs9w) (some exTs9w))
            (getVertexData 5 exPos9w (some exNs9w) (some exTs9w))).upperIndices
          ((emptyHullState.addUpper
            (getVertexData 0 exPos9w (some exNs9w) (some exTs9w))
            (getVertexData 1 exPos9w (some exNs9w) (some exTs9w))
            (getVertexData 2 exPos9w (some exNs9w) (some exTs9w))).addLower
            (getVertexData 3 exPos9w (some exNs9w) (some exTs9w))
            (getVertexData 4 exPos9w (some exNs9w) (some exTs9w))
            (getVertexData 5 exPos9w (some exNs9w) (some exTs9w))).upperContour
          true).2,
        (generateCap exPlane
          ((emptyHullState.addUpper
            (getVertexData 0 exPos9w (some exNs9w) (some exTs9w))
            (getVertexData 1 exPos9w (some exNs9w) (some exTs9w))
            (getVertexData 2 exPos9w (some exNs9w) (some exTs9w))).addLower
            (getVertexData 3 exPos9w (some exNs9w) (some exTs9w))
            (getVertexData 4 exPos9w (some exNs9w) (some exTs9w))
            (getVertexData 5 exPos9w (some exNs9w) (some exTs9w))).lowerVerts
          ((emptyHullState.addUpper
            (getVertexData 0 exPos9w (some exNs9w) (some exTs9w))
            (getVertexData 1 exPos9w (some exNs9w) (some exTs9w))
            (getVertexData 2 exPos9w (some exNs9w) (some exTs9w))).addLower
            (getVertexData 3 exPos9w (some exNs9w) (some exTs9w))
            (getVertexData 4 exPos9w (some exNs9w) (some exTs9w))
            (getVertexData 5 exPos9w (some exNs9w) (some exTs9w))).lowerIndices
          ((emptyHullState.addUpper
            (getVertexData 0 exPos9w (some exNs9w) (some exTs9w))
            (getVertexData 1 exPos9w (some exNs9w) (some exTs9w))
            (getVertexData 2 exPos9w (some exNs9w) (some exTs9w))).addLower
            (getVertexData 3 exPos9w (some exNs9w) (some exTs9w))
            (getVertexData 4 exPos9w (some exNs9w) (some exTs9w))
            (getVertexData 5 exPos9w (some exNs9w) (some exTs9w))).lowerContour
          false).1,
        (generateCap exPlane
          ((emptyHullState.addUpper
            (getVertexData 0 exPos9w (some exNs9w) (some exTs9w))
            (getVertexData 1 exPos9w (some exNs9w) (some exTs9w))
            (getVertexData 2 exPos9w (some exNs9w) (some exTs9w))).addLower
            (getVertexData 3 exPos9w (some exNs9w) (some exTs9w))
            (getVertexData 4 exPos9w (some exNs9w) (some exTs9w))
            (getVertexData 5 exPos9w (some exNs9w) (some exTs9w))).lowerVerts
          ((emptyHullState.addUpper
            (getVertexData 0 exPos9w (some exNs9w) (some exTs9w))
            (getVertexData 1 exPos9w (some exNs9w) (some exTs9w))
            (getVertexData 2 exPos9w (some exNs9w) (some exTs9w))).addLower
            (getVertexData 3 exPos9w (some exNs9w) (some exTs9w))
            (getVertexData 4 exPos9w (some exNs9w) (some exTs9w))
            (getVertexData 5 exPos9w (some exNs9w) (some exTs9w))).lowerIndices
          ((emptyHullState.addUpper
            (getVertexData 0 exPos9w (some exNs9w) (some exTs9w))
            (getVertexData 1 exPos9w (some exNs9w) (some exTs9w))
            (getVertexData 2 exPos9w (some exNs9w) (some exTs9w))).addLower
            (getVertexData 3 exPos9w (some exNs9w) (some exTs9w))
            (getVertexData 4 exPos9w (some exNs9w) (some exTs9w))
            (getVertexData 5 exPos9w (some exNs9w) (some exTs9w))).lowerContour
          false).2⟩ := by
    unfold sliceMesh
    dsimp only
    rw [hacc]
    rw [if_neg (by simp [emptyHullState])]
  have hsome : sliceMesh exPlane (fun x => x)
      ⟨some exPos9w, some exNs9w, some exTs9w, some [0, 1, 2, 3, 4, 5]⟩
      = some ((sliceMesh exPlane (fun x => x)
          ⟨some exPos9w, some exNs9w, some exTs9w,
            some [0, 1, 2, 3, 4, 5]⟩).getD emptySliceResult) := by
    rw [hmesh]
    rfl
  exact ⟨hsome, sliced_hulls_attribute_consistent_full_input exPlane
    (fun x => x) exPos9w exNs9w exTs9w [0, 1, 2, 3, 4, 5] _ hsome⟩
